import Mathlib

/-!
Verification development for the Lark notification subsystem of Roo-Code
(`src/services/lark-notification`): the delivery service
(`LarkNotificationService`), the per-task event adapter
(`TaskNotificationAdapter`) and the task registry (`TaskEventListener`).

The TypeScript is shallowly embedded:
* JS numbers used as epoch-milliseconds / counters become `Nat`.
* `x || default` on optional numbers (JS falsiness of `0`/`undefined`)
  becomes `jsOrNat`.
* JS `Map`s become association lists with lookup/overwrite helpers.
* Asynchronous callbacks that may throw are modelled by `ListenerSpec`
  (the listener's identity plus the message it throws, if any);
  exceptions are modelled with `Except`/`Option String`.
* The single-threaded timer queue (`setTimeout`) is modelled by an
  explicit list of live `(kind, deadline)` timers and a scheduler that
  fires due timers in deadline order.
-/

namespace LarkSpec

/-- JS `x || d` for an optional number: `undefined` and `0` are falsy. -/
def jsOrNat (o : Option Nat) (d : Nat) : Nat :=
  match o with
  | none => d
  | some n => if n = 0 then d else n

/-- JS truthiness of an optional string: `undefined` and `""` are falsy. -/
def jsTruthyStr (o : Option String) : Bool :=
  match o with
  | none => false
  | some s => !(s = "")

/-- Association-list lookup (JS `Map.get`). -/
def mget {α β : Type} [DecidableEq α] : List (α × β) → α → Option β
  | [], _ => none
  | (k, v) :: rest, key => if k = key then some v else mget rest key

/-- Association-list overwrite (JS `Map.set`). -/
def mset {α β : Type} [DecidableEq α] (m : List (α × β)) (key : α) (v : β) :
    List (α × β) :=
  (key, v) :: m.filter (fun p => decide (p.1 ≠ key))

/-- Association-list removal (JS `Map.delete`). -/
def mdel {α β : Type} [DecidableEq α] (m : List (α × β)) (key : α) :
    List (α × β) :=
  m.filter (fun p => decide (p.1 ≠ key))

/-! ## Data model (`types.ts`) -/

/-- `TaskNotificationStatus` from `types.ts`. -/
inductive TaskNotificationStatus
  | created
  | in_progress
  | completed
  | failed
deriving DecidableEq, Repr

/-- `LarkBotType` from `types.ts`. -/
inductive LarkBotType
  | webhook
  | app
deriving DecidableEq, Repr

/-- `LarkAppBotConfig` from `types.ts`. -/
structure LarkAppBotConfig where
  appId : String
  appSecret : String
  chatId : String
deriving DecidableEq, Repr

/-- `LarkNotificationConfig` from `types.ts`. -/
structure LarkNotificationConfig where
  enabled : Bool
  botType : Option LarkBotType
  webhookUrl : Option String
  appBot : Option LarkAppBotConfig
  useMcp : Bool
  mcpServerName : Option String
  retryCount : Option Nat
  retryDelay : Option Nat
deriving DecidableEq, Repr

/-- `TaskNotificationData` from `types.ts` (the payload `send` receives). -/
structure TaskNotificationData where
  taskId : String
  taskName : String
  status : TaskNotificationStatus
  progress : Option Nat
  message : Option String
  error : Option String
  timestamp : Nat
deriving DecidableEq, Repr

/-- `NotificationResult` from `types.ts`. -/
structure NotificationResult where
  success : Bool
  messageId : Option String
  error : Option String
deriving DecidableEq, Repr

/-! ## Listeners

A subscriber callback is modelled by its identity `id` and by
`throwsMsg`: `none` for a callback that returns normally, `some m` for a
callback that throws an error with message `m` when invoked. -/

/-- Model of one subscriber callback. -/
structure ListenerSpec where
  id : Nat
  throwsMsg : Option String
deriving DecidableEq, Repr

/-- `LarkNotificationService.emitEvent` iterates listeners with
`forEach(listener => listener(event))` — NO try/catch.  Returns the ids
actually invoked and the first propagated error, if any.  A throwing
listener stops the iteration and the exception escapes. -/
def runListenersNoCatch : List ListenerSpec → List Nat × Option String
  | [] => ([], none)
  | l :: rest =>
    match l.throwsMsg with
    | some m => ([l.id], some m)
    | none =>
      let r := runListenersNoCatch rest
      (l.id :: r.1, r.2)

/-- `TaskNotificationAdapter.emitToListeners` iterates listeners in a
`for` loop with a per-listener try/catch that logs the error.  Returns
the ids invoked and the ids whose errors were caught and logged.  Every
listener is always invoked; nothing propagates. -/
def runListenersCatch : List ListenerSpec → List Nat × List Nat
  | [] => ([], [])
  | l :: rest =>
    let r := runListenersCatch rest
    match l.throwsMsg with
    | some _ => (l.id :: r.1, l.id :: r.2)
    | none => (l.id :: r.1, r.2)

/-- The service's listener registry, keyed by the event-type string
(`"notification:sent"`, `"notification:retry"`, `"notification:failed"`,
plus the catch-all channel `"notification"`). -/
def ServiceListeners : Type := String → List ListenerSpec

/-- `LarkNotificationService.emitEvent`: run the type-specific listeners,
then the generic `"notification"` listeners; no isolation, so an error
thrown by a listener aborts the remaining ones and propagates.  Returns
(invoked ids, propagated error). -/
def emitEventRun (L : ServiceListeners) (t : String) : List Nat × Option String :=
  let r1 := runListenersNoCatch (L t)
  match r1.2 with
  | some m => (r1.1, some m)
  | none =>
    let r2 := runListenersNoCatch (L "notification")
    (r1.1 ++ r2.1, r2.2)

/-- The error (if any) escaping from `emitEvent`. -/
def emitEventErr (L : ServiceListeners) (t : String) : Option String :=
  (emitEventRun L t).2

/-- A `ServiceListeners` registry none of whose callbacks throws. -/
def NoThrow (L : ServiceListeners) : Prop :=
  ∀ s l, l ∈ L s → l.throwsMsg = none

/-! ## `LarkNotificationService.sendNotification` (the retry loop)

The transport attempt `doSendNotification(data)` is abstracted by an
oracle `f : Nat → Except String NotificationResult` giving the outcome
of the n-th attempt (`Except.error e` models a thrown error with message
`e`).  The observable behaviour is recorded as a trace of `SendEvent`s:
one `attempt` entry per `doSendNotification` call (carrying the payload
it was called with), one entry per `emitEvent` call, and one `delay`
entry per backoff sleep. -/

/-- One observable step of the retry loop. -/
inductive SendEvent
  | attempt (n : Nat) (data : TaskNotificationData)
  | sentEvent
  | retryEvent
  | failedEvent
  | delay (ms : Nat)
deriving DecidableEq, Repr

/-- The body of `sendNotification`'s `for (attempt = 1; attempt <= retryCount)`
loop, iterating over the list of attempt indices (`range' 1 retryCount`),
so that `attempt < retryCount` is "the tail is nonempty".  Inside the
`try`: call the transport, then emit `notification:sent` (an error thrown
by a `sent` listener is caught by the same `catch`).  In the `catch`:
if attempts remain, emit `notification:retry` (NOT inside a try — a
throwing listener propagates) and sleep `retryDelay * attempt`; after the
last attempt fails, fall out of the loop, emit `notification:failed`
(again unprotected) and return `{success:false, error:lastError}`. -/
def retryLoop (f : Nat → Except String NotificationResult)
    (L : ServiceListeners) (data : TaskNotificationData) (D : Nat) :
    List Nat → Option String → Except String NotificationResult × List SendEvent
  | [], lastError =>
    (match emitEventErr L "notification:failed" with
     | some m => Except.error m
     | none => Except.ok { success := false, messageId := none, error := lastError },
     [SendEvent.failedEvent])
  | attempt :: restAttempts, _ =>
    match (match f attempt with
           | Except.error e => Except.error e
           | Except.ok r =>
             match emitEventErr L "notification:sent" with
             | some m => Except.error m
             | none => Except.ok r : Except String NotificationResult) with
    | Except.ok r => (Except.ok r, [SendEvent.attempt attempt data, SendEvent.sentEvent])
    | Except.error e =>
      if restAttempts.isEmpty then
        (match emitEventErr L "notification:failed" with
         | some m => Except.error m
         | none => Except.ok { success := false, messageId := none, error := some e },
         [SendEvent.attempt attempt data, SendEvent.failedEvent])
      else
        match emitEventErr L "notification:retry" with
        | some m => (Except.error m, [SendEvent.attempt attempt data, SendEvent.retryEvent])
        | none =>
          let rest := retryLoop f L data D restAttempts (some e)
          (rest.1, SendEvent.attempt attempt data :: SendEvent.retryEvent ::
                   SendEvent.delay (D * attempt) :: rest.2)

/-- `LarkNotificationService.sendNotification`: if the service is
disabled, return `{success:true, messageId:undefined}` at once with no
transport activity; otherwise run the retry loop over attempts
`1 .. retryCount` with `retryCount = config.retryCount || 3` and
`retryDelay = config.retryDelay || 1000`. -/
def sendNotification (cfg : LarkNotificationConfig)
    (f : Nat → Except String NotificationResult) (L : ServiceListeners)
    (data : TaskNotificationData) :
    Except String NotificationResult × List SendEvent :=
  if cfg.enabled = false then
    (Except.ok { success := true, messageId := none, error := none }, [])
  else
    retryLoop f L data (jsOrNat cfg.retryDelay 1000)
      (List.range' 1 (jsOrNat cfg.retryCount 3)) none

/-! ## The four public wrappers (`notifyTaskCreated` etc.)

Each spreads the caller's payload, overwrites `status` with its own
fixed value and replaces a falsy `timestamp` (`0` included) with
`Date.now()` (the `now` argument). -/

/-- `notifyTaskCreated`. -/
def notifyTaskCreated (cfg : LarkNotificationConfig)
    (f : Nat → Except String NotificationResult) (L : ServiceListeners)
    (now : Nat) (data : TaskNotificationData) :
    Except String NotificationResult × List SendEvent :=
  sendNotification cfg f L
    { data with status := TaskNotificationStatus.created,
                timestamp := if data.timestamp = 0 then now else data.timestamp }

/-- `notifyTaskProgress`. -/
def notifyTaskProgress (cfg : LarkNotificationConfig)
    (f : Nat → Except String NotificationResult) (L : ServiceListeners)
    (now : Nat) (data : TaskNotificationData) :
    Except String NotificationResult × List SendEvent :=
  sendNotification cfg f L
    { data with status := TaskNotificationStatus.in_progress,
                timestamp := if data.timestamp = 0 then now else data.timestamp }

/-- `notifyTaskCompleted`. -/
def notifyTaskCompleted (cfg : LarkNotificationConfig)
    (f : Nat → Except String NotificationResult) (L : ServiceListeners)
    (now : Nat) (data : TaskNotificationData) :
    Except String NotificationResult × List SendEvent :=
  sendNotification cfg f L
    { data with status := TaskNotificationStatus.completed,
                timestamp := if data.timestamp = 0 then now else data.timestamp }

/-- `notifyTaskFailed`. -/
def notifyTaskFailed (cfg : LarkNotificationConfig)
    (f : Nat → Except String NotificationResult) (L : ServiceListeners)
    (now : Nat) (data : TaskNotificationData) :
    Except String NotificationResult × List SendEvent :=
  sendNotification cfg f L
    { data with status := TaskNotificationStatus.failed,
                timestamp := if data.timestamp = 0 then now else data.timestamp }

/-! ## `doSendNotification` — transport selection

`doSendNotification` picks the transport from the current config and the
presence of the injected `mcpToolCaller`:
MCP if `useMcp && mcpToolCaller`, else app bot if
`botType === LarkBotType.APP && appBot`, else webhook if `webhookUrl` is
truthy, else throw the fixed "no method available" error. -/

/-- Which transport a single delivery attempt uses. -/
inductive TransportChoice
  | mcp
  | appBot
  | webhook
deriving DecidableEq, Repr

/-- The fixed message of the error thrown when no transport is available. -/
def noTransportMsg : String :=
  "No notification method available: MCP tool caller not set, and no app bot or webhook configured. " ++
  "Please configure appId/appSecret/chatId for app bot, or provide webhookUrl."

/-- Transport selection of `LarkNotificationService.doSendNotification`. -/
def doSendNotificationChoice (cfg : LarkNotificationConfig)
    (hasMcpToolCaller : Bool) : Except String TransportChoice :=
  if cfg.useMcp && hasMcpToolCaller then
    Except.ok TransportChoice.mcp
  else if cfg.botType = some LarkBotType.app ∧ cfg.appBot.isSome then
    Except.ok TransportChoice.appBot
  else if jsTruthyStr cfg.webhookUrl then
    Except.ok TransportChoice.webhook
  else
    Except.error noTransportMsg

/-! ## App-bot path: token cache (`getTenantAccessToken`) and
`sendViaAppBot`

Network effects are abstracted by oracles: `tokenFetch` is the outcome
of the token-endpoint POST (`Except.error` models a network failure or
non-ok HTTP status, which the source turns into a thrown error), and
`msgSend` the outcome of the message-endpoint POST.  Both functions
additionally return how many token fetches / message sends they issued,
so call counts are observable. -/

/-- `TokenCache` from `LarkNotificationService`. -/
structure TokenCache where
  token : String
  expireAt : Nat
deriving DecidableEq, Repr

/-- `LarkTenantAccessTokenResponse` from `types.ts`. -/
structure LarkTenantAccessTokenResponse where
  code : Int
  msg : String
  tenant_access_token : Option String
  expire : Option Nat
deriving DecidableEq, Repr

/-- The `data` object of `LarkSendMessageResponse`. -/
structure LarkSendMessageData where
  message_id : Option String
deriving DecidableEq, Repr

/-- `LarkSendMessageResponse` from `types.ts`. -/
structure LarkSendMessageResponse where
  code : Int
  msg : String
  data : Option LarkSendMessageData
deriving DecidableEq, Repr

/-- The fetch branch of `getTenantAccessToken`: POST the credentials,
throw on network/HTTP failure, throw `Lark auth error` when
`code !== 0 || !tenant_access_token` — `!token` is JS truthiness, so a
missing token AND an empty-string token both throw — otherwise overwrite
the cache with expiry `now + (expire || 7200) * 1000` and return the
fresh token.  Result: (token or thrown error, new cache, number of
fetches issued). -/
def fetchFreshToken :
    Except String LarkTenantAccessTokenResponse → Option TokenCache → Nat →
    Except String String × Option TokenCache × Nat
  | Except.error e, cache, _ => (Except.error e, cache, 1)
  | Except.ok r, cache, now =>
    match r.tenant_access_token with
    | none =>
      (Except.error ("Lark auth error: " ++ toString r.code ++ " - " ++ r.msg), cache, 1)
    | some t =>
      if r.code = 0 ∧ ¬(t = "") then
        (Except.ok t, some { token := t, expireAt := now + (jsOrNat r.expire 7200) * 1000 }, 1)
      else
        (Except.error ("Lark auth error: " ++ toString r.code ++ " - " ++ r.msg), cache, 1)

/-- `getTenantAccessToken`: reuse the cached token iff its expiry is more
than 5 minutes in the future (`expireAt > now + 5*60*1000`), else fetch a
fresh one. -/
def getTenantAccessToken (tokenFetch : Except String LarkTenantAccessTokenResponse) :
    Option TokenCache → Nat → Except String String × Option TokenCache × Nat
  | some c, now =>
    if now + 5 * 60 * 1000 < c.expireAt then (Except.ok c.token, some c, 0)
    else fetchFreshToken tokenFetch (some c) now
  | none, now => fetchFreshToken tokenFetch none now

/-- `sendViaAppBot`: obtain a token (via the cache), then POST the card to
the message endpoint; non-ok HTTP or non-zero platform `code` is a thrown
error.  Result: (result or thrown error, new cache, token fetches,
message sends). -/
def sendViaAppBot (tokenFetch : Except String LarkTenantAccessTokenResponse)
    (msgSend : Except String LarkSendMessageResponse) :
    Option LarkAppBotConfig → Option TokenCache → Nat →
    Except String NotificationResult × Option TokenCache × Nat × Nat
  | none, cache, _ => (Except.error "App bot configuration not set", cache, 0, 0)
  | some _, cache, now =>
    match getTenantAccessToken tokenFetch cache now with
    | (Except.error e, cache2, fetches) => (Except.error e, cache2, fetches, 0)
    | (Except.ok _, cache2, fetches) =>
      match msgSend with
      | Except.error e => (Except.error e, cache2, fetches, 1)
      | Except.ok resp =>
        if resp.code = 0 then
          (Except.ok { success := true,
                       messageId := resp.data.bind (fun d => d.message_id),
                       error := none },
           cache2, fetches, 1)
        else
          (Except.error ("Lark API error: " ++ toString resp.code ++ " - " ++ resp.msg),
           cache2, fetches, 1)

/-! ## Task event adapter (`TaskNotificationAdapter.ts`)

The adapter's kind-specific event payload (`data`) is never inspected by
the dispatch pipeline (filter, throttle, listener fan-out), so it is
abstracted as a `Nat` tag that distinguishes events. -/

/-- `TaskNotificationEventType` from `types.ts`. -/
inductive TaskNotificationEventType
  | task_started
  | task_progress
  | task_tool_use
  | task_completed
  | task_failed
  | task_cancelled
  | task_paused
  | task_resumed
  | task_token_updated
deriving DecidableEq, Repr

/-- `TaskEventFilterConfig` from `types.ts`. -/
structure TaskEventFilterConfig where
  eventTypes : Option (List TaskNotificationEventType)
  taskIds : Option (List String)
  includeSubtasks : Option Bool
deriving DecidableEq, Repr

/-- `ThrottleConfig` from `types.ts`. -/
structure ThrottleConfig where
  enabled : Bool
  intervalMs : Nat
  eventTypes : Option (List TaskNotificationEventType)
deriving DecidableEq, Repr

/-- `TaskNotificationAdapterConfig` from `types.ts` (full form, as held by
an adapter after merging with its defaults). -/
structure TaskNotificationAdapterConfig where
  enabled : Bool
  filter : Option TaskEventFilterConfig
  throttle : Option ThrottleConfig
  autoNotify : Option Bool
deriving DecidableEq, Repr

/-- The adapter's `DEFAULT_CONFIG`. -/
def DEFAULT_ADAPTER_CONFIG : TaskNotificationAdapterConfig :=
  { enabled := true,
    autoNotify := some true,
    throttle := some { enabled := true, intervalMs := 2000,
                       eventTypes := some [TaskNotificationEventType.task_progress,
                                           TaskNotificationEventType.task_token_updated] },
    filter := none }

/-- The slice of a `Task` the adapter reads (`taskId`, `parentTaskId`,
`metadata?.task`). -/
structure TaskRef where
  taskId : String
  parentTaskId : Option String
  metadataTask : Option String
deriving DecidableEq, Repr

/-- An `AnyTaskEventData` value: the common fields plus the kind-specific
payload abstracted as a tag. -/
structure AdapterEvent where
  event : TaskNotificationEventType
  taskId : String
  timestamp : Nat
  payload : Nat
deriving DecidableEq, Repr

/-- Key of the adapter's listener map: `some k` for a kind, `none` for
the wildcard `"*"` (stored under `"all"` in the source). -/
abbrev ListenerKey := Option TaskNotificationEventType

/-- The mutable state of one `TaskNotificationAdapter`.
`throttleTimers` holds the live `setTimeout`s as `(kind, fire deadline)`
pairs; `boundHandlers` the names of the raw task signals currently
subscribed. -/
structure AdapterState where
  task : Option TaskRef
  isAttached : Bool
  taskStartTime : Nat
  lastEventTime : List (TaskNotificationEventType × Nat)
  pendingEvents : List (TaskNotificationEventType × AdapterEvent)
  throttleTimers : List (TaskNotificationEventType × Nat)
  boundHandlers : List String
  eventListeners : List (ListenerKey × List ListenerSpec)
  config : TaskNotificationAdapterConfig
deriving DecidableEq, Repr

/-- The state of a freshly constructed adapter
(`new TaskNotificationAdapter(config)` after merging with the defaults). -/
def initialAdapter (cfg : TaskNotificationAdapterConfig) : AdapterState :=
  { task := none, isAttached := false, taskStartTime := 0,
    lastEventTime := [], pendingEvents := [], throttleTimers := [],
    boundHandlers := [], eventListeners := [], config := cfg }

/-- `TaskNotificationAdapter.on`: push the listener onto the array for
the key (wildcard `"*"` maps to the `"all"` bucket, here `none`). -/
def adapterOn (st : AdapterState) (k : ListenerKey) (l : ListenerSpec) :
    AdapterState :=
  let cur := (mget st.eventListeners k).getD []
  { st with eventListeners := mset st.eventListeners k (cur ++ [l]) }

/-- Remove the first occurrence of `x` (JS `indexOf` + `splice`). -/
def removeFirst : List ListenerSpec → ListenerSpec → List ListenerSpec
  | [], _ => []
  | a :: rest, x => if a = x then rest else a :: removeFirst rest x

/-- `TaskNotificationAdapter.off`: remove the first occurrence of the
listener from the key's array (`indexOf` + `splice`); no change if it is
absent (`indexOf` returns `-1`). -/
def adapterOff (st : AdapterState) (k : ListenerKey) (l : ListenerSpec) :
    AdapterState :=
  let cur := (mget st.eventListeners k).getD []
  if l ∈ cur then
    { st with eventListeners := mset st.eventListeners k (removeFirst cur l) }
  else st

/-- `TaskNotificationAdapter.emitToListeners`: run the kind-specific
listeners, then the wildcard (`"all"`) listeners, each in a `for` loop
with per-listener try/catch.  Returns (invoked ids, logged error ids). -/
def emitToListeners (listeners : List (ListenerKey × List ListenerSpec))
    (e : AdapterEvent) : List Nat × List Nat :=
  let r1 := runListenersCatch ((mget listeners (some e.event)).getD [])
  let r2 := runListenersCatch ((mget listeners none).getD [])
  (r1.1 ++ r2.1, r1.2 ++ r2.2)

/-- One accepted dispatch: the moment it happened, the event, and the
outcome of the local listener fan-out. -/
structure Dispatch where
  time : Nat
  ev : AdapterEvent
  invoked : List Nat
  logged : List Nat
deriving DecidableEq, Repr

/-- `TaskNotificationAdapter.shouldProcessEvent` (the filter gate). -/
def shouldProcessEvent (cfg : TaskNotificationAdapterConfig)
    (taskParent : Option String) (e : AdapterEvent) : Bool :=
  match cfg.filter with
  | none => true
  | some filter =>
    if (match filter.eventTypes with
        | some l => decide (0 < l.length) && !(l.contains e.event)
        | none => false) then false
    else if (match filter.taskIds with
        | some l => decide (0 < l.length) && !(l.contains e.taskId)
        | none => false) then false
    else if filter.includeSubtasks = some false && jsTruthyStr taskParent then false
    else true

/-- `TaskNotificationAdapter.shouldThrottle`: throttle iff throttling is
enabled, the kind is subject to it, and the kind's last accepted time is
within `intervalMs` of now.  The source guards with `if (!lastTime)
return false`, which is JS truthiness: an absent entry AND a recorded
last-event time of `0` both disable throttling. -/
def shouldThrottle (cfg : TaskNotificationAdapterConfig)
    (lastEventTime : List (TaskNotificationEventType × Nat))
    (k : TaskNotificationEventType) (now : Nat) : Bool :=
  match cfg.throttle with
  | none => false
  | some th =>
    if !th.enabled then false
    else if (match th.eventTypes with
             | some l => !(l.contains k)
             | none => false) then false
    else
      match mget lastEventTime k with
      | none => false
      | some lastTime =>
        if lastTime = 0 then false
        else decide (now - lastTime < th.intervalMs)

/-- `TaskNotificationAdapter.scheduleThrottledEvent`: if a timer for the
kind already exists do nothing, otherwise arm a single trailing timer
`intervalMs` in the future. -/
def scheduleThrottledEvent (st : AdapterState) (k : TaskNotificationEventType)
    (now : Nat) : AdapterState :=
  if (mget st.throttleTimers k).isSome then st
  else
    match st.config.throttle with
    | none => st
    | some th => { st with throttleTimers := (k, now + th.intervalMs) :: st.throttleTimers }

/-- `TaskNotificationAdapter.notify`: drop if disabled; drop if filtered;
if throttled, overwrite the kind's pending slot and arm the trailing
timer; otherwise accept: record the kind's last event time and dispatch
(local fan-out, then delivery when `autoNotify`). -/
def notify (st : AdapterState) (now : Nat) (e : AdapterEvent) :
    AdapterState × List Dispatch :=
  if !st.config.enabled then (st, [])
  else if !shouldProcessEvent st.config (st.task.bind (fun t => t.parentTaskId)) e then
    (st, [])
  else if shouldThrottle st.config st.lastEventTime e.event now then
    let st1 := { st with pendingEvents := mset st.pendingEvents e.event e }
    (scheduleThrottledEvent st1 e.event now, [])
  else
    let r := emitToListeners st.eventListeners e
    ({ st with lastEventTime := mset st.lastEventTime e.event now },
     [{ time := now, ev := e, invoked := r.1, logged := r.2 }])

/-- The body of the `setTimeout` callback armed by
`scheduleThrottledEvent`: remove the timer handle, and if a pending event
occupies the kind's slot, clear the slot, stamp the kind's last event
time with the fire time and dispatch that event. -/
def fireTimer (st : AdapterState) (k : TaskNotificationEventType) (fireTime : Nat) :
    AdapterState × List Dispatch :=
  let st1 := { st with throttleTimers := mdel st.throttleTimers k }
  match mget st1.pendingEvents k with
  | none => (st1, [])
  | some e =>
    let r := emitToListeners st1.eventListeners e
    ({ st1 with pendingEvents := mdel st1.pendingEvents k,
                lastEventTime := mset st1.lastEventTime k fireTime },
     [{ time := fireTime, ev := e, invoked := r.1, logged := r.2 }])

/-- The live timer with the earliest deadline (ties: the earliest-armed,
which sits later in the cons-fronted list). -/
def earliestTimer (timers : List (TaskNotificationEventType × Nat)) :
    Option (TaskNotificationEventType × Nat) :=
  timers.foldl
    (fun acc p =>
      match acc with
      | none => some p
      | some q => if p.2 ≤ q.2 then some p else some q)
    none

/-- Fire every live timer whose deadline is `≤ t`, in deadline order.
Firing never arms a new timer, so the number of live timers bounds the
work; `fuel` carries that bound structurally. -/
def fireDueFuel : Nat → AdapterState → Nat → AdapterState × List Dispatch
  | 0, st, _ => (st, [])
  | fuel + 1, st, t =>
    match earliestTimer (st.throttleTimers.filter (fun p => decide (p.2 ≤ t))) with
    | none => (st, [])
    | some kd =>
      let r1 := fireTimer st kd.1 kd.2
      let r2 := fireDueFuel fuel r1.1 t
      (r2.1, r1.2 ++ r2.2)

/-- Fire all timers due at or before `t`. -/
def fireDue (st : AdapterState) (t : Nat) : AdapterState × List Dispatch :=
  fireDueFuel st.throttleTimers.length st t

/-- Fire every remaining live timer, in deadline order. -/
def drainFuel : Nat → AdapterState → AdapterState × List Dispatch
  | 0, st => (st, [])
  | fuel + 1, st =>
    match earliestTimer st.throttleTimers with
    | none => (st, [])
    | some kd =>
      let r1 := fireTimer st kd.1 kd.2
      let r2 := drainFuel fuel r1.1
      (r2.1, r1.2 ++ r2.2)

/-- Run the event loop to completion: fire every remaining timer. -/
def drainTimers (st : AdapterState) : AdapterState × List Dispatch :=
  drainFuel st.throttleTimers.length st

/-- Feed a time-stamped input through `notify`, firing timers that come
due first (single-threaded event loop). -/
def processInputs (st : AdapterState) :
    List (Nat × AdapterEvent) → AdapterState × List Dispatch
  | [] => (st, [])
  | (t, e) :: rest =>
    let r1 := fireDue st t
    let r2 := notify r1.1 t e
    let r3 := processInputs r2.1 rest
    (r3.1, r1.2 ++ r2.2 ++ r3.2)

/-- Run a whole scenario: deliver each input in order (firing due timers
first), then let the event loop drain the remaining timers. -/
def runAdapter (st : AdapterState) (inputs : List (Nat × AdapterEvent)) :
    AdapterState × List Dispatch :=
  let r := processInputs st inputs
  let d := drainTimers r.1
  (d.1, r.2 ++ d.2)

/-! ### attach / detach -/

/-- The five raw task signals `bindTaskEvents` subscribes to. -/
def taskSignalNames : List String :=
  ["taskCompleted", "taskAborted", "taskTokenUsageUpdated", "taskToolFailed", "message"]

/-- `TaskNotificationAdapter.detach`: no-op when not attached; otherwise
cancel all throttle timers, unbind every bound handler and clear the
transient state.  `config` and `eventListeners` are untouched. -/
def detach (st : AdapterState) : AdapterState :=
  if !st.isAttached || st.task.isNone then st
  else
    { st with
      throttleTimers := [],
      boundHandlers := [],
      task := none,
      isAttached := false,
      lastEventTime := [],
      pendingEvents := [],
      taskStartTime := 0 }

/-- `emitTaskStarted`: synthesize a `TASK_STARTED` event for the attached
task and run it through `notify` (payload tag 0 abstracts the
`taskName`/`mode`/`parentTaskId` record). -/
def emitTaskStarted (st : AdapterState) (now : Nat) :
    AdapterState × List Dispatch :=
  match st.task with
  | none => (st, [])
  | some task =>
    notify st now
      { event := TaskNotificationEventType.task_started,
        taskId := task.taskId, timestamp := now, payload := 0 }

/-- `TaskNotificationAdapter.attach`: implicitly detach if already
attached, record the start time, bind the five raw signal handlers and
immediately synthesize the `TASK_STARTED` event. -/
def attach (st : AdapterState) (task : TaskRef) (now : Nat) :
    AdapterState × List Dispatch :=
  let st0 := if st.isAttached then detach st else st
  let st1 := { st0 with task := some task, taskStartTime := now,
                        isAttached := true, boundHandlers := taskSignalNames }
  emitTaskStarted st1 now

/-! ## Task registry (`TaskEventListener.ts`) -/

/-- `Partial<TaskNotificationAdapterConfig>`: each field may be absent. -/
structure AdapterConfigPartial where
  enabled : Option Bool
  filter : Option TaskEventFilterConfig
  throttle : Option ThrottleConfig
  autoNotify : Option Bool
deriving DecidableEq, Repr

/-- The empty partial (`{}` / an `undefined` override). -/
def emptyPartial : AdapterConfigPartial :=
  { enabled := none, filter := none, throttle := none, autoNotify := none }

/-- JS object spread `{...a, ...b}` on two partials: fields present in
`b` win. -/
def mergePartial (a b : AdapterConfigPartial) : AdapterConfigPartial :=
  { enabled := match b.enabled with | some v => some v | none => a.enabled,
    filter := match b.filter with | some v => some v | none => a.filter,
    throttle := match b.throttle with | some v => some v | none => a.throttle,
    autoNotify := match b.autoNotify with | some v => some v | none => a.autoNotify }

/-- JS object spread `{...base, ...p}` of a partial over a full config
(the adapter constructor's `{...DEFAULT_CONFIG, ...config}`). -/
def applyPartial (base : TaskNotificationAdapterConfig) (p : AdapterConfigPartial) :
    TaskNotificationAdapterConfig :=
  { enabled := match p.enabled with | some v => v | none => base.enabled,
    filter := match p.filter with | some v => some v | none => base.filter,
    throttle := match p.throttle with | some v => some v | none => base.throttle,
    autoNotify := match p.autoNotify with | some v => some v | none => base.autoNotify }

/-- `TaskAdapterInfo` from `TaskEventListener.ts`. -/
structure TaskAdapterInfo where
  taskId : String
  adapter : AdapterState
  createdAt : Nat
deriving DecidableEq, Repr

/-- The registry's state: the task-id-keyed adapter map, the registry's
default adapter config and the master enable flag. -/
structure RegistryState where
  adapters : List (String × TaskAdapterInfo)
  defaultConfig : AdapterConfigPartial
  isEnabled : Bool
deriving DecidableEq, Repr

/-- `TaskEventListener.unregisterTask`: detach the adapter, clear its
listeners and drop the entry; no-op when absent.  Also returns the final
state of the removed adapter, so its teardown is observable. -/
def unregisterTask (reg : RegistryState) (taskId : String) :
    RegistryState × Option AdapterState :=
  match mget reg.adapters taskId with
  | none => (reg, none)
  | some info =>
    let a := detach info.adapter
    let a2 := { a with eventListeners := [] }
    ({ reg with adapters := mdel reg.adapters taskId }, some a2)

/-- `TaskEventListener.registerTask`: unregister a stale entry for the
same task id first; build the effective adapter config
`{...defaultConfig, ...config, enabled: isEnabled && config?.enabled !== false}`;
create the adapter, subscribe the global wildcard forwarder, attach it to
the task and store the entry.  Returns (new registry, new adapter, the
detached stale adapter if there was one). -/
def registerTask (reg : RegistryState) (task : TaskRef)
    (cfgOv : Option AdapterConfigPartial) (now : Nat) (forwarderId : Nat) :
    RegistryState × AdapterState × Option AdapterState :=
  let pre :=
    if (mget reg.adapters task.taskId).isSome then unregisterTask reg task.taskId
    else (reg, none)
  let adapterConfig : AdapterConfigPartial :=
    { mergePartial reg.defaultConfig (cfgOv.getD emptyPartial) with
      enabled := some (reg.isEnabled &&
        decide (cfgOv.bind (fun c => c.enabled) ≠ some false)) }
  let adapter0 := initialAdapter (applyPartial DEFAULT_ADAPTER_CONFIG adapterConfig)
  let adapter1 := adapterOn adapter0 none { id := forwarderId, throwsMsg := none }
  let r := attach adapter1 task now
  ({ pre.1 with
     adapters := mset pre.1.adapters task.taskId
       { taskId := task.taskId, adapter := r.1, createdAt := now } },
   r.1, pre.2)

/-! ## Concrete fixtures (used by witnesses and counterexamples) -/

/-- A sample payload. -/
def dataW : TaskNotificationData :=
  { taskId := "t1", taskName := "Build", status := TaskNotificationStatus.created,
    progress := none, message := none, error := none, timestamp := 5 }

/-- A service-listener registry with no listeners at all. -/
def noListeners : ServiceListeners := fun _ => []

/-- A sample enabled service config with `retryCount = 2`, `retryDelay = 7`. -/
def cfgW1 : LarkNotificationConfig :=
  { enabled := true, botType := some LarkBotType.app, webhookUrl := none,
    appBot := none, useMcp := false, mcpServerName := none,
    retryCount := some 2, retryDelay := some 7 }

/-- A sample family of error messages, one per attempt. -/
def errW : Nat → String := fun n => "boom" ++ toString n

/-- Config with MCP enabled and a caller available. -/
def cfgMcp : LarkNotificationConfig :=
  { cfgW1 with useMcp := true, mcpServerName := some "task-manager" }

/-- Config with app-bot credentials and `botType = APP`. -/
def cfgApp : LarkNotificationConfig :=
  { cfgW1 with appBot := some { appId := "id", appSecret := "sec", chatId := "chat" } }

/-- Config with only a webhook URL. -/
def cfgWebhookC : LarkNotificationConfig :=
  { cfgW1 with botType := some LarkBotType.webhook, webhookUrl := some "https://wh" }

/-- Config whose app-bot credentials are present but whose `botType` is
`webhook`, with no webhook URL and no MCP. -/
def cfgNoBotType : LarkNotificationConfig :=
  { enabled := true, botType := some LarkBotType.webhook, webhookUrl := none,
    appBot := some { appId := "id", appSecret := "sec", chatId := "chat" },
    useMcp := false, mcpServerName := none, retryCount := some 1, retryDelay := some 1 }

/-- Sample app-bot credentials. -/
def botW : LarkAppBotConfig := { appId := "id", appSecret := "sec", chatId := "chat" }

/-- A successful token response (`expire = 7200` seconds). -/
def tokRespW : LarkTenantAccessTokenResponse :=
  { code := 0, msg := "ok", tenant_access_token := some "tok", expire := some 7200 }

/-- A rejected token response (auth error, no token). -/
def tokRespBadW : LarkTenantAccessTokenResponse :=
  { code := 99991663, msg := "app not found", tenant_access_token := none, expire := none }

/-- A successful message-send response. -/
def sendRespW : LarkSendMessageResponse :=
  { code := 0, msg := "ok", data := some { message_id := some "m1" } }

/-- A service-listener registry with a throwing listener (id 7) followed
by a normal one (id 8) on `notification:failed`. -/
def throwingListeners : ServiceListeners := fun s =>
  if s = "notification:failed" then
    [{ id := 7, throwsMsg := some "boom" }, { id := 8, throwsMsg := none }]
  else []

/-- A sample (non-throwing) adapter listener. -/
def lsnW : ListenerSpec := { id := 1, throwsMsg := none }

/-- An adapter on which the same listener was registered twice for
`TASK_STARTED`. -/
def stDup : AdapterState :=
  adapterOn
    (adapterOn (initialAdapter DEFAULT_ADAPTER_CONFIG)
      (some TaskNotificationEventType.task_started) lsnW)
    (some TaskNotificationEventType.task_started) lsnW

/-- A sample `TASK_STARTED` event. -/
def evStartedW : AdapterEvent :=
  { event := TaskNotificationEventType.task_started, taskId := "t1",
    timestamp := 0, payload := 0 }

/-- The adapter config never throttles `TASK_STARTED`: throttling is off,
or its event-type list is explicit and excludes `TASK_STARTED` (the
default config is of this shape). -/
def throttleFreeStarted (cfg : TaskNotificationAdapterConfig) : Prop :=
  match cfg.throttle with
  | none => True
  | some th => th.enabled = false ∨
      (∃ l, th.eventTypes = some l ∧
        l.contains TaskNotificationEventType.task_started = false)

/-- A sample task. -/
def taskW : TaskRef := { taskId := "t1", parentTaskId := none, metadataTask := some "Build" }

/-- A second sample task. -/
def taskW2 : TaskRef := { taskId := "t2", parentTaskId := none, metadataTask := none }

/-- An adapter config that throttles exactly the kinds in `ets` at
interval `I` milliseconds, with no filter. -/
def throttleCfg (I : Nat) (ets : List TaskNotificationEventType)
    (autoN : Option Bool) : TaskNotificationAdapterConfig :=
  { enabled := true, filter := none, autoNotify := autoN,
    throttle := some { enabled := true, intervalMs := I, eventTypes := some ets } }

/-- An adapter state with empty dispatch maps and no live timers, in
configuration `cfg`; the remaining fields are arbitrary. -/
def cleanAdapter (cfg : TaskNotificationAdapterConfig) (T : Option TaskRef)
    (A : Bool) (ts : Nat) (B : List String)
    (EL : List (ListenerKey × List ListenerSpec)) : AdapterState :=
  { task := T, isAttached := A, taskStartTime := ts, lastEventTime := [],
    pendingEvents := [], throttleTimers := [], boundHandlers := B,
    eventListeners := EL, config := cfg }

/-- The adapter state in the middle of a throttled burst of kind `K`:
the first event of the burst was accepted at `t0`, one trailing timer is
armed for `d`, and `p` occupies `K`'s pending slot. -/
def burstState (cfg : TaskNotificationAdapterConfig) (T : Option TaskRef)
    (A : Bool) (ts : Nat) (B : List String)
    (EL : List (ListenerKey × List ListenerSpec))
    (K : TaskNotificationEventType) (t0 d : Nat) (p : AdapterEvent) : AdapterState :=
  { task := T, isAttached := A, taskStartTime := ts, lastEventTime := [(K, t0)],
    pendingEvents := [(K, p)], throttleTimers := [(K, d)], boundHandlers := B,
    eventListeners := EL, config := cfg }

/-- Burst events of kind `TASK_PROGRESS` (payload tags 0, 1, 2). -/
def eP0 : AdapterEvent :=
  { event := TaskNotificationEventType.task_progress, taskId := "t1",
    timestamp := 0, payload := 0 }

/-- Second burst event. -/
def eP1 : AdapterEvent :=
  { event := TaskNotificationEventType.task_progress, taskId := "t1",
    timestamp := 100, payload := 1 }

/-- Third burst event. -/
def eP2 : AdapterEvent :=
  { event := TaskNotificationEventType.task_progress, taskId := "t1",
    timestamp := 200, payload := 2 }

/-- An event of a kind not subject to throttling. -/
def eC : AdapterEvent :=
  { event := TaskNotificationEventType.task_completed, taskId := "t1",
    timestamp := 50, payload := 3 }

/-- An empty enabled registry. -/
def reg0W : RegistryState :=
  { adapters := [], defaultConfig := emptyPartial, isEnabled := true }

/-- An adapter freshly attached to `taskW` at time 10. -/
def stAtt : AdapterState := (attach (initialAdapter DEFAULT_ADAPTER_CONFIG) taskW 10).1

/-- One registry operation, for stating invariants over call sequences. -/
inductive RegistryOp
  | register (task : TaskRef) (cfgOv : Option AdapterConfigPartial) (now : Nat) (fid : Nat)
  | unregister (taskId : String)

/-- Apply one registry operation. -/
def applyOp (reg : RegistryState) : RegistryOp → RegistryState
  | RegistryOp.register task cfgOv now fid => (registerTask reg task cfgOv now fid).1
  | RegistryOp.unregister taskId => (unregisterTask reg taskId).1

/-- Apply a sequence of registry operations. -/
def applyOps (reg : RegistryState) (ops : List RegistryOp) : RegistryState :=
  ops.foldl applyOp reg

/-! ## General lemmas -/

theorem noListeners_noThrow : NoThrow noListeners := fun _ _ h => nomatch h

theorem runListenersNoCatch_ofNoThrow (ls : List ListenerSpec)
    (h : ∀ l ∈ ls, l.throwsMsg = none) : (runListenersNoCatch ls).2 = none := by
  induction ls with
  | nil => rfl
  | cons a rest ih =>
    have ha : a.throwsMsg = none := h a (List.mem_cons_self a rest)
    simp only [runListenersNoCatch, ha]
    exact ih fun l hl => h l (List.mem_cons_of_mem a hl)

theorem emitEventErr_ofNoThrow (L : ServiceListeners) (hL : NoThrow L) (t : String) :
    emitEventErr L t = none := by
  have h1 := runListenersNoCatch_ofNoThrow (L t) (fun l hl => hL t l hl)
  have h2 := runListenersNoCatch_ofNoThrow (L "notification") (fun l hl => hL _ l hl)
  simp only [emitEventErr, emitEventRun, h1, h2]

theorem range'_one_concat (s n : Nat) :
    List.range' s (n + 1) = List.range' s n ++ [s + n] := by
  induction n generalizing s with
  | zero => simp [List.range'_succ]
  | succ n ih =>
    rw [List.range'_succ, ih (s + 1), List.range'_succ]
    have h : s + 1 + n = s + (n + 1) := by omega
    simp [h]

theorem range'_one_append (s m n : Nat) :
    List.range' s (m + n) = List.range' s m ++ List.range' (s + m) n := by
  induction m generalizing s with
  | zero => simp
  | succ m ih =>
    have h1 : m + 1 + n = (m + n) + 1 := by omega
    rw [h1, List.range'_succ, List.range'_succ, ih (s + 1)]
    have h2 : s + 1 + m = s + (m + 1) := by omega
    simp [h2]

theorem retryLoop_allFail (f : Nat → Except String NotificationResult)
    (L : ServiceListeners) (data : TaskNotificationData) (D : Nat)
    (err : Nat → String) (hL : NoThrow L)
    (hf : ∀ n, f n = Except.error (err n)) :
    ∀ (attempts : List Nat) (a : Nat) (lastErr : Option String),
      retryLoop f L data D (attempts ++ [a]) lastErr =
        (Except.ok { success := false, messageId := none, error := some (err a) },
         attempts.flatMap (fun i =>
           [SendEvent.attempt i data, SendEvent.retryEvent, SendEvent.delay (D * i)]) ++
         [SendEvent.attempt a data, SendEvent.failedEvent]) := by
  intro attempts
  induction attempts with
  | nil =>
    intro a lastErr
    simp [retryLoop, hf a, emitEventErr_ofNoThrow L hL]
  | cons i rest ih =>
    intro a lastErr
    simp only [List.cons_append, retryLoop, hf i, emitEventErr_ofNoThrow L hL]
    simp [ih a (some (err i))]

theorem retryLoop_failThenSucceed (g : Nat → Except String NotificationResult)
    (L : ServiceListeners) (data : TaskNotificationData) (D : Nat)
    (err : Nat → String) (res : NotificationResult) (hL : NoThrow L) :
    ∀ (attempts : List Nat) (a : Nat) (more : List Nat) (lastErr : Option String),
      (∀ i ∈ attempts, g i = Except.error (err i)) →
      g a = Except.ok res →
      retryLoop g L data D (attempts ++ a :: more) lastErr =
        (Except.ok res,
         attempts.flatMap (fun i =>
           [SendEvent.attempt i data, SendEvent.retryEvent, SendEvent.delay (D * i)]) ++
         [SendEvent.attempt a data, SendEvent.sentEvent]) := by
  intro attempts
  induction attempts with
  | nil =>
    intro a more lastErr _ hga
    simp [retryLoop, hga, emitEventErr_ofNoThrow L hL]
  | cons i rest ih =>
    intro a more lastErr hfail hga
    have hi : g i = Except.error (err i) := hfail i (List.mem_cons_self i rest)
    simp only [List.cons_append, retryLoop, hi, emitEventErr_ofNoThrow L hL]
    simp [ih a more (some (err i)) (fun j hj => hfail j (List.mem_cons_of_mem i hj)) hga]

/-! ## Claims -/

/-- C1: with the service enabled and a configured `retryCount = N ≥ 1`
and `retryDelay = D ≥ 1` (and no throwing service listeners), a transport
that always fails is attempted exactly `N` times, each failed non-final
attempt emits a `notification:retry` event and sleeps `D * attempt`
(linear backoff), and the result is `{success:false, error:lastError}`
with the last attempt's error; a transport failing `k < N` times and then
succeeding is attempted exactly `k+1` times and the successful result is
returned immediately, with no retry event after the success. -/
theorem sendNotification_retry_spec
    (cfg : LarkNotificationConfig) (L : ServiceListeners)
    (data : TaskNotificationData) (N D : Nat)
    (hE : cfg.enabled = true)
    (hN : cfg.retryCount = some N) (hN1 : 1 ≤ N)
    (hD : cfg.retryDelay = some D) (hD1 : 1 ≤ D)
    (hL : NoThrow L)
    (f g : Nat → Except String NotificationResult)
    (err : Nat → String) (res : NotificationResult) :
    ((∀ n, f n = Except.error (err n)) →
      ∀ k, N = k + 1 →
      sendNotification cfg f L data =
        (Except.ok { success := false, messageId := none, error := some (err N) },
         (List.range' 1 k).flatMap (fun i =>
           [SendEvent.attempt i data, SendEvent.retryEvent, SendEvent.delay (D * i)]) ++
         [SendEvent.attempt N data, SendEvent.failedEvent])) ∧
    (∀ k m, N = k + m + 1 →
      (∀ i, 1 ≤ i → i ≤ k → g i = Except.error (err i)) →
      g (k + 1) = Except.ok res →
      sendNotification cfg g L data =
        (Except.ok res,
         (List.range' 1 k).flatMap (fun i =>
           [SendEvent.attempt i data, SendEvent.retryEvent, SendEvent.delay (D * i)]) ++
         [SendEvent.attempt (k + 1) data, SendEvent.sentEvent])) := by
  have hjsD : jsOrNat cfg.retryDelay 1000 = D := by
    rw [hD]; simp [jsOrNat]; omega
  constructor
  · intro hf k hk
    subst hk
    have hjs : jsOrNat cfg.retryCount 3 = k + 1 := by rw [hN]; simp [jsOrNat]
    simp only [sendNotification, hE, hjs, hjsD]
    rw [if_neg (by simp)]
    rw [range'_one_concat]
    rw [retryLoop_allFail f L data D err hL hf (List.range' 1 k) (1 + k) none]
    simp only [Nat.add_comm 1 k]
  · intro k m hk hg1 hg2
    subst hk
    have hjs : jsOrNat cfg.retryCount 3 = k + m + 1 := by rw [hN]; simp [jsOrNat]
    simp only [sendNotification, hE, hjs, hjsD]
    rw [if_neg (by simp)]
    have h3 : k + m + 1 = k + (m + 1) := by omega
    rw [h3, range'_one_append 1 k (m + 1), List.range'_succ]
    rw [retryLoop_failThenSucceed g L data D err res hL (List.range' 1 k) (1 + k) _ none
      (fun i hi => by
        have h4 := List.mem_range'_1.mp hi
        exact hg1 i h4.1 (by omega))
      (by rw [Nat.add_comm]; exact hg2)]
    simp only [Nat.add_comm 1 k]

/-- C1 witness: `retryCount = 2`, `retryDelay = 7`; an always-failing
transport is attempted twice and returns the second error; a transport
failing once then succeeding is attempted twice and returns the success. -/
theorem sendNotification_retry_spec_witness :
    sendNotification cfgW1 (fun n => Except.error (errW n)) noListeners dataW =
      (Except.ok { success := false, messageId := none, error := some "boom2" },
       [SendEvent.attempt 1 dataW, SendEvent.retryEvent, SendEvent.delay 7,
        SendEvent.attempt 2 dataW, SendEvent.failedEvent]) ∧
    sendNotification cfgW1
        (fun n => if n = 1 then Except.error (errW n)
                  else Except.ok { success := true, messageId := some "m", error := none })
        noListeners dataW =
      (Except.ok { success := true, messageId := some "m", error := none },
       [SendEvent.attempt 1 dataW, SendEvent.retryEvent, SendEvent.delay 7,
        SendEvent.attempt 2 dataW, SendEvent.sentEvent]) := by
  have h := sendNotification_retry_spec cfgW1 noListeners dataW 2 7 rfl rfl (by omega) rfl
    (by omega) noListeners_noThrow
    (fun n => Except.error (errW n))
    (fun n => if n = 1 then Except.error (errW n)
              else Except.ok { success := true, messageId := some "m", error := none })
    errW { success := true, messageId := some "m", error := none }
  refine ⟨?_, ?_⟩
  · have h1 := h.1 (fun n => rfl) 1 rfl
    simpa using h1
  · have h2 := h.2 1 0 rfl
      (fun i hi1 hi2 => by
        have : i = 1 := by omega
        subst this; rfl)
      rfl
    simpa using h2

/-- C2: with the service disabled, `sendNotification` returns
`{success:true, messageId:undefined}` immediately and the trace is empty:
no transport attempt, hence no MCP invocation, HTTP request or token
fetch, and no events. -/
theorem sendNotification_disabled
    (cfg : LarkNotificationConfig) (f : Nat → Except String NotificationResult)
    (L : ServiceListeners) (data : TaskNotificationData)
    (h : cfg.enabled = false) :
    sendNotification cfg f L data =
      (Except.ok { success := true, messageId := none, error := none }, []) := by
  simp [sendNotification, h]

/-- C2 witness at a concrete disabled config and payload. -/
theorem sendNotification_disabled_witness :
    sendNotification { cfgW1 with enabled := false }
        (fun _ => Except.error "e") noListeners dataW =
      (Except.ok { success := true, messageId := none, error := none }, []) :=
  sendNotification_disabled _ _ _ _ rfl

theorem retryLoop_head (f : Nat → Except String NotificationResult)
    (L : ServiceListeners) (data : TaskNotificationData) (D : Nat)
    (a : Nat) (rest : List Nat) (lastErr : Option String) :
    (retryLoop f L data D (a :: rest) lastErr).2.head? =
      some (SendEvent.attempt a data) := by
  simp only [retryLoop]
  split
  · rfl
  · split
    · rfl
    · split
      · rfl
      · rfl

theorem jsOrNat_pos (o : Option Nat) (d : Nat) (hd : 1 ≤ d) :
    1 ≤ jsOrNat o d := by
  unfold jsOrNat
  cases o with
  | none => exact hd
  | some n =>
    dsimp only
    split
    · exact hd
    · omega

theorem sendNotification_head (cfg : LarkNotificationConfig)
    (f : Nat → Except String NotificationResult) (L : ServiceListeners)
    (data : TaskNotificationData) (hE : cfg.enabled = true) :
    (sendNotification cfg f L data).2.head? = some (SendEvent.attempt 1 data) := by
  simp only [sendNotification, hE]
  rw [if_neg (by simp)]
  obtain ⟨k, hk⟩ := Nat.exists_eq_add_of_le (jsOrNat_pos cfg.retryCount 3 (by omega))
  rw [hk, Nat.add_comm 1 k, List.range'_succ]
  exact retryLoop_head f L data _ 1 _ none

/-- C10: each of the four public wrappers overwrites the payload's
`status` with its own fixed value (`created` / `in_progress` /
`completed` / `failed`) regardless of the caller-supplied status, and
replaces a falsy `timestamp` (including the legitimate value `0`) with
the current time; all other fields are passed through unchanged to the
delivery attempt. -/
theorem notifyWrappers_override (cfg : LarkNotificationConfig)
    (f : Nat → Except String NotificationResult) (L : ServiceListeners)
    (now : Nat) (data : TaskNotificationData) (hE : cfg.enabled = true) :
    (∃ p, (notifyTaskCreated cfg f L now data).2.head? = some (SendEvent.attempt 1 p) ∧
       p.status = TaskNotificationStatus.created ∧
       p.timestamp = (if data.timestamp = 0 then now else data.timestamp) ∧
       p.taskId = data.taskId ∧ p.taskName = data.taskName ∧
       p.progress = data.progress ∧ p.message = data.message ∧ p.error = data.error) ∧
    (∃ p, (notifyTaskProgress cfg f L now data).2.head? = some (SendEvent.attempt 1 p) ∧
       p.status = TaskNotificationStatus.in_progress ∧
       p.timestamp = (if data.timestamp = 0 then now else data.timestamp) ∧
       p.taskId = data.taskId ∧ p.taskName = data.taskName ∧
       p.progress = data.progress ∧ p.message = data.message ∧ p.error = data.error) ∧
    (∃ p, (notifyTaskCompleted cfg f L now data).2.head? = some (SendEvent.attempt 1 p) ∧
       p.status = TaskNotificationStatus.completed ∧
       p.timestamp = (if data.timestamp = 0 then now else data.timestamp) ∧
       p.taskId = data.taskId ∧ p.taskName = data.taskName ∧
       p.progress = data.progress ∧ p.message = data.message ∧ p.error = data.error) ∧
    (∃ p, (notifyTaskFailed cfg f L now data).2.head? = some (SendEvent.attempt 1 p) ∧
       p.status = TaskNotificationStatus.failed ∧
       p.timestamp = (if data.timestamp = 0 then now else data.timestamp) ∧
       p.taskId = data.taskId ∧ p.taskName = data.taskName ∧
       p.progress = data.progress ∧ p.message = data.message ∧ p.error = data.error) := by
  refine ⟨⟨_, sendNotification_head cfg f L _ hE, rfl, rfl, rfl, rfl, rfl, rfl, rfl⟩,
          ⟨_, sendNotification_head cfg f L _ hE, rfl, rfl, rfl, rfl, rfl, rfl, rfl⟩,
          ⟨_, sendNotification_head cfg f L _ hE, rfl, rfl, rfl, rfl, rfl, rfl, rfl⟩,
          ⟨_, sendNotification_head cfg f L _ hE, rfl, rfl, rfl, rfl, rfl, rfl, rfl⟩⟩

/-- C10 witness: with `timestamp = 0` and caller-supplied status
`completed`, `notifyTaskCreated` delivers status `created` and the
current time `99`. -/
theorem notifyWrappers_override_witness :
    ∃ p, (notifyTaskCreated cfgW1 (fun _ => Except.error "e") noListeners 99
            { dataW with timestamp := 0, status := TaskNotificationStatus.completed
            }).2.head? = some (SendEvent.attempt 1 p) ∧
      p.status = TaskNotificationStatus.created ∧ p.timestamp = 99 := by
  obtain ⟨⟨p, h1, h2, h3, _⟩, _⟩ := notifyWrappers_override cfgW1 (fun _ => Except.error "e")
    noListeners 99 { dataW with timestamp := 0, status := TaskNotificationStatus.completed } rfl
  exact ⟨p, h1, h2, by simpa using h3⟩

/-- C3 counterexample: app-bot credentials are present (and MCP is off),
but `botType` is `webhook` and no webhook URL is set; the claim says the
DIRECT_BOT transport is selected because credentials are present, yet
`doSendNotification` additionally requires `botType === LarkBotType.APP`
and instead throws the "no transport configured" error. -/
theorem doSendNotificationChoice_cex :
    cfgNoBotType.appBot.isSome = true ∧
    cfgNoBotType.useMcp = false ∧
    doSendNotificationChoice cfgNoBotType false ≠ Except.ok TransportChoice.appBot ∧
    doSendNotificationChoice cfgNoBotType false = Except.error noTransportMsg := by
  refine ⟨rfl, rfl, ?_, rfl⟩
  intro h
  rw [show doSendNotificationChoice cfgNoBotType false = Except.error noTransportMsg from rfl] at h
  exact Except.noConfusion h

/-- C3 amended: a single delivery attempt selects MCP when `useMcp` is
set and a caller was injected; otherwise the app bot when `botType` is
`APP` and credentials are present; otherwise the webhook when the URL is
truthy; when MCP is configured but no caller was injected it falls
through to the remaining transports instead of failing; if nothing is
available it throws the fixed "no transport configured" error whose text
names the missing pieces. -/
theorem doSendNotificationChoice_spec (cfg : LarkNotificationConfig)
    (hasCaller : Bool) :
    (cfg.useMcp = true → hasCaller = true →
      doSendNotificationChoice cfg hasCaller = Except.ok TransportChoice.mcp) ∧
    ((cfg.useMcp = false ∨ hasCaller = false) →
      cfg.botType = some LarkBotType.app → cfg.appBot.isSome = true →
      doSendNotificationChoice cfg hasCaller = Except.ok TransportChoice.appBot) ∧
    ((cfg.useMcp = false ∨ hasCaller = false) →
      ¬(cfg.botType = some LarkBotType.app ∧ cfg.appBot.isSome = true) →
      jsTruthyStr cfg.webhookUrl = true →
      doSendNotificationChoice cfg hasCaller = Except.ok TransportChoice.webhook) ∧
    ((cfg.useMcp = false ∨ hasCaller = false) →
      ¬(cfg.botType = some LarkBotType.app ∧ cfg.appBot.isSome = true) →
      jsTruthyStr cfg.webhookUrl = false →
      doSendNotificationChoice cfg hasCaller = Except.error noTransportMsg) := by
  have hmcp : ∀ h : cfg.useMcp = false ∨ hasCaller = false,
      (cfg.useMcp && hasCaller) = false := by
    intro h
    rcases h with h | h <;> simp [h]
  refine ⟨?_, ?_, ?_, ?_⟩
  · intro h1 h2
    simp [doSendNotificationChoice, h1, h2]
  · intro h h1 h2
    simp [doSendNotificationChoice, hmcp h, h1, h2]
  · intro h h1 h2
    simp [doSendNotificationChoice, hmcp h, h1, h2]
  · intro h h1 h2
    simp [doSendNotificationChoice, hmcp h, h1, h2]

/-- C3 amended witness: each selection outcome at a concrete config. -/
theorem doSendNotificationChoice_spec_witness :
    doSendNotificationChoice cfgMcp true = Except.ok TransportChoice.mcp ∧
    doSendNotificationChoice cfgApp false = Except.ok TransportChoice.appBot ∧
    doSendNotificationChoice cfgWebhookC true = Except.ok TransportChoice.webhook ∧
    doSendNotificationChoice { cfgW1 with botType := none } false =
      Except.error noTransportMsg := by
  refine ⟨(doSendNotificationChoice_spec cfgMcp true).1 rfl rfl,
          (doSendNotificationChoice_spec cfgApp false).2.1 (Or.inr rfl) rfl rfl,
          (doSendNotificationChoice_spec cfgWebhookC true).2.2.1 (Or.inl rfl)
            (by decide) rfl,
          (doSendNotificationChoice_spec { cfgW1 with botType := none } false).2.2.2
            (Or.inr rfl) (by decide) rfl⟩

theorem fetchFreshToken_count (fetch : Except String LarkTenantAccessTokenResponse)
    (cache : Option TokenCache) (now : Nat) :
    (fetchFreshToken fetch cache now).2.2 = 1 := by
  rcases fetch with e | r
  · rfl
  · unfold fetchFreshToken
    dsimp only
    rcases h : r.tenant_access_token with _ | t
    · simp [h]
    · dsimp only
      split <;> rfl

theorem fetchFreshToken_ok (fetch : Except String LarkTenantAccessTokenResponse)
    (r : LarkTenantAccessTokenResponse) (t : String) (cache : Option TokenCache)
    (now : Nat) (h1 : fetch = Except.ok r) (h2 : r.tenant_access_token = some t)
    (h3 : r.code = 0) (h4 : ¬(t = "")) :
    fetchFreshToken fetch cache now =
      (Except.ok t,
       some { token := t, expireAt := now + (jsOrNat r.expire 7200) * 1000 }, 1) := by
  subst h1
  unfold fetchFreshToken
  dsimp only
  rw [h2]
  dsimp only
  rw [if_pos ⟨h3, h4⟩]

theorem sendViaAppBot_afterToken (fetch : Except String LarkTenantAccessTokenResponse)
    (send : Except String LarkSendMessageResponse) (bot : LarkAppBotConfig)
    (cache : Option TokenCache) (now : Nat) (tok : String) (c2 : Option TokenCache)
    (n : Nat) (h : getTenantAccessToken fetch cache now = (Except.ok tok, c2, n)) :
    (sendViaAppBot fetch send (some bot) cache now).2 = (c2, n, 1) := by
  unfold sendViaAppBot
  dsimp only
  rw [h]
  dsimp only
  rcases send with e | resp
  · rfl
  · dsimp only
    split <;> rfl

theorem sendViaAppBot_fetchCount (fetch : Except String LarkTenantAccessTokenResponse)
    (send : Except String LarkSendMessageResponse) (bot : LarkAppBotConfig)
    (cache : Option TokenCache) (now : Nat) :
    (sendViaAppBot fetch send (some bot) cache now).2.2.1 =
      (getTenantAccessToken fetch cache now).2.2 := by
  unfold sendViaAppBot
  dsimp only
  rcases h : getTenantAccessToken fetch cache now with ⟨tokr, c2, n⟩
  rcases tokr with e | tk
  · rfl
  · dsimp only
    rcases send with e | resp
    · rfl
    · dsimp only
      split <;> rfl

/-- C4: the direct-bot token cache.  (i) A cached token is reused (zero
fetches, cache unchanged) iff its expiry is more than 5 minutes in the
future; (ii) otherwise a fresh (truthy, i.e. non-empty) token is fetched
and the single shared cache entry is overwritten with expiry
`now + expire*1000` (`expire` defaulting to 7200 s); (iii) a non-zero
response code or missing token — absent or JS-falsy empty string — is a
thrown error leaving the cache as is, with no internal retry and zero
message sends; (iv) two sends within one cache lifetime issue exactly one
token fetch and two message sends; (v) a send after expiry issues a new
token fetch. -/
theorem tokenCache_spec (bot : LarkAppBotConfig) (c : TokenCache)
    (fetch fetchBad fetch2 : Except String LarkTenantAccessTokenResponse)
    (send1 send2 : Except String LarkSendMessageResponse)
    (r rBad : LarkTenantAccessTokenResponse) (t : String) (now now2 now3 : Nat)
    (hf : fetch = Except.ok r) (ht : r.tenant_access_token = some t) (hc : r.code = 0)
    (htne : ¬(t = ""))
    (hbad : fetchBad = Except.ok rBad)
    (hbadc : rBad.code ≠ 0 ∨ rBad.tenant_access_token = none ∨
      rBad.tenant_access_token = some "") :
    ((getTenantAccessToken fetch (some c) now).2.2 = 0 ↔
      now + 5 * 60 * 1000 < c.expireAt) ∧
    (now + 5 * 60 * 1000 < c.expireAt →
      getTenantAccessToken fetch (some c) now = (Except.ok c.token, some c, 0)) ∧
    (¬(now + 5 * 60 * 1000 < c.expireAt) →
      getTenantAccessToken fetch (some c) now =
        (Except.ok t,
         some { token := t, expireAt := now + (jsOrNat r.expire 7200) * 1000 }, 1)) ∧
    (∃ e, sendViaAppBot fetchBad send1 (some bot) none now =
      (Except.error e, none, 1, 0)) ∧
    (now2 + 5 * 60 * 1000 < now + (jsOrNat r.expire 7200) * 1000 →
      (sendViaAppBot fetch send1 (some bot) none now).2.2.1 +
        (sendViaAppBot fetch2 send2 (some bot)
          (sendViaAppBot fetch send1 (some bot) none now).2.1 now2).2.2.1 = 1 ∧
      (sendViaAppBot fetch send1 (some bot) none now).2.2.2 +
        (sendViaAppBot fetch2 send2 (some bot)
          (sendViaAppBot fetch send1 (some bot) none now).2.1 now2).2.2.2 = 2) ∧
    (¬(now3 + 5 * 60 * 1000 < now + (jsOrNat r.expire 7200) * 1000) →
      (sendViaAppBot fetch2 send2 (some bot)
        (sendViaAppBot fetch send1 (some bot) none now).2.1 now3).2.2.1 = 1) := by
  have hg1 : getTenantAccessToken fetch none now =
      (Except.ok t, some { token := t, expireAt := now + (jsOrNat r.expire 7200) * 1000 }, 1) := by
    unfold getTenantAccessToken
    dsimp only
    exact fetchFreshToken_ok fetch r t none now hf ht hc htne
  have hs1 := sendViaAppBot_afterToken fetch send1 bot none now t _ _ hg1
  have hs1c : (sendViaAppBot fetch send1 (some bot) none now).2.1 =
      some { token := t, expireAt := now + (jsOrNat r.expire 7200) * 1000 } := by
    rw [hs1]
  refine ⟨?_, ?_, ?_, ?_, ?_, ?_⟩
  · unfold getTenantAccessToken
    dsimp only
    split
    · rename_i hlt
      simp [hlt]
    · rename_i hge
      simp [fetchFreshToken_count, hge]
  · intro hlt
    unfold getTenantAccessToken
    dsimp only
    rw [if_pos hlt]
  · intro hge
    unfold getTenantAccessToken
    dsimp only
    rw [if_neg hge]
    exact fetchFreshToken_ok fetch r t (some c) now hf ht hc htne
  · have hbadFetch : ∃ e, getTenantAccessToken fetchBad none now = (Except.error e, none, 1) := by
      subst hbad
      unfold getTenantAccessToken
      dsimp only
      unfold fetchFreshToken
      dsimp only
      rcases hbt : rBad.tenant_access_token with _ | tb
      · exact ⟨_, rfl⟩
      · have hcond : ¬(rBad.code = 0 ∧ ¬(tb = "")) := by
          rcases hbadc with h | h | h
          · exact fun hcc => h hcc.1
          · rw [h] at hbt
            exact absurd hbt (by simp)
          · have htb : tb = "" := by
              have h2 := h.symm.trans hbt
              exact (Option.some.inj h2).symm
            exact fun hcc => hcc.2 htb
        dsimp only
        rw [if_neg hcond]
        exact ⟨_, rfl⟩
    obtain ⟨e, he⟩ := hbadFetch
    refine ⟨e, ?_⟩
    unfold sendViaAppBot
    dsimp only
    rw [he]
  · intro hlife
    have hg2 : getTenantAccessToken fetch2
        (some { token := t, expireAt := now + (jsOrNat r.expire 7200) * 1000 }) now2 =
        (Except.ok t, some { token := t, expireAt := now + (jsOrNat r.expire 7200) * 1000 }, 0) := by
      unfold getTenantAccessToken
      dsimp only
      rw [if_pos hlife]
    have hs2 := sendViaAppBot_afterToken fetch2 send2 bot _ now2 t _ _ hg2
    rw [hs1c]
    constructor
    · rw [show (sendViaAppBot fetch send1 (some bot) none now).2.2.1 = 1 from by rw [hs1]]
      rw [show (sendViaAppBot fetch2 send2 (some bot)
          (some { token := t, expireAt := now + (jsOrNat r.expire 7200) * 1000 }) now2).2.2.1 = 0
        from by rw [hs2]]
    · rw [show (sendViaAppBot fetch send1 (some bot) none now).2.2.2 = 1 from by rw [hs1]]
      rw [show (sendViaAppBot fetch2 send2 (some bot)
          (some { token := t, expireAt := now + (jsOrNat r.expire 7200) * 1000 }) now2).2.2.2 = 1
        from by rw [hs2]]
  · intro hexp
    rw [hs1c, sendViaAppBot_fetchCount]
    unfold getTenantAccessToken
    dsimp only
    rw [if_neg hexp]
    exact fetchFreshToken_count fetch2 _ now3

/-- C4 witness: with `expire = 7200` s, a token minted at `now = 0` is
reused at `now2 = 1000` (one fetch, two sends in total) and refreshed at
`now3 = 7000000`; a cached token with 400 s of life left is not reused;
an auth-rejected fetch is a thrown error with no message send. -/
theorem tokenCache_spec_witness :
    ((getTenantAccessToken (Except.ok tokRespW)
        (some { token := "old", expireAt := 400000 }) 0).2.2 = 0 ↔
      (0 : Nat) + 5 * 60 * 1000 < 400000) ∧
    getTenantAccessToken (Except.ok tokRespW)
        (some { token := "old", expireAt := 400000 }) 0 =
      (Except.ok "old", some { token := "old", expireAt := 400000 }, 0) ∧
    getTenantAccessToken (Except.ok tokRespW)
        (some { token := "old", expireAt := 1000 }) 0 =
      (Except.ok "tok", some { token := "tok", expireAt := 7200000 }, 1) ∧
    (∃ e, sendViaAppBot (Except.ok tokRespBadW) (Except.ok sendRespW) (some botW) none 0 =
      (Except.error e, none, 1, 0)) ∧
    ((sendViaAppBot (Except.ok tokRespW) (Except.ok sendRespW) (some botW) none 0).2.2.1 +
      (sendViaAppBot (Except.ok tokRespW) (Except.ok sendRespW) (some botW)
        (sendViaAppBot (Except.ok tokRespW) (Except.ok sendRespW) (some botW) none 0).2.1
        1000).2.2.1 = 1) ∧
    ((sendViaAppBot (Except.ok tokRespW) (Except.ok sendRespW) (some botW)
        (sendViaAppBot (Except.ok tokRespW) (Except.ok sendRespW) (some botW) none 0).2.1
        7000000).2.2.1 = 1) := by
  have h := tokenCache_spec botW { token := "old", expireAt := 400000 }
    (Except.ok tokRespW) (Except.ok tokRespBadW) (Except.ok tokRespW)
    (Except.ok sendRespW) (Except.ok sendRespW) tokRespW tokRespBadW "tok" 0 1000 7000000
    rfl rfl rfl (by decide) rfl (Or.inl (by decide))
  have h2 := tokenCache_spec botW { token := "old", expireAt := 1000 }
    (Except.ok tokRespW) (Except.ok tokRespBadW) (Except.ok tokRespW)
    (Except.ok sendRespW) (Except.ok sendRespW) tokRespW tokRespBadW "tok" 0 1000 7000000
    rfl rfl rfl (by decide) rfl (Or.inl (by decide))
  refine ⟨h.1, h.2.1 (by decide), ?_, h.2.2.2.1, (h.2.2.2.2.1 (by decide)).1,
          h.2.2.2.2.2 (by decide)⟩
  have h3 := h2.2.2.1 (by decide)
  simpa [tokRespW, jsOrNat] using h3

theorem retryLoop_ok (f : Nat → Except String NotificationResult)
    (L : ServiceListeners) (data : TaskNotificationData) (D : Nat)
    (hL : NoThrow L) :
    ∀ (attempts : List Nat) (lastErr : Option String),
      ∃ res, (retryLoop f L data D attempts lastErr).1 = Except.ok res := by
  intro attempts
  induction attempts with
  | nil =>
    intro lastErr
    simp [retryLoop, emitEventErr_ofNoThrow L hL]
  | cons a rest ih =>
    intro lastErr
    rcases hf : f a with e | r
    · simp only [retryLoop, hf, emitEventErr_ofNoThrow L hL]
      by_cases hre : rest.isEmpty
      · simp [hre]
      · simp only [Bool.not_eq_true] at hre
        simp [hre, ih (some e)]
    · simp [retryLoop, hf, emitEventErr_ofNoThrow L hL]

/-- C6 counterexample: a registered `notification:failed` listener that
throws.  `emitEvent` has no per-listener try/catch, so the sibling
listener (id 8) is never invoked, and the exception escapes
`sendNotification` itself: the caller gets a thrown error instead of a
`{success:false, error}` result. -/
theorem listenerIsolation_cex :
    emitEventRun throwingListeners "notification:failed" = ([7], some "boom") ∧
    (sendNotification { cfgW1 with retryCount := some 1 }
        (fun _ => Except.error "x") throwingListeners dataW).1 =
      Except.error "boom" := by
  constructor
  · rfl
  · rfl

/-- C6 amended: listener-error isolation holds for the ADAPTER's local
fan-out (`emitToListeners` catches per listener: every listener is
invoked even when earlier siblings throw, and nothing propagates), but
NOT for the service's `emitEvent`.  The service's `sendNotification`
never throws — returning transport failures as `{success:false, error}`
— provided no registered service listener throws. -/
theorem listenerIsolation_spec (ls : List ListenerSpec)
    (listeners : List (ListenerKey × List ListenerSpec)) (e : AdapterEvent)
    (L : ServiceListeners) (cfg : LarkNotificationConfig)
    (f : Nat → Except String NotificationResult) (data : TaskNotificationData)
    (hL : NoThrow L) :
    (runListenersCatch ls).1 = ls.map (fun l => l.id) ∧
    (emitToListeners listeners e).1 =
      (((mget listeners (some e.event)).getD []) ++
       ((mget listeners none).getD [])).map (fun l => l.id) ∧
    (∃ res, (sendNotification cfg f L data).1 = Except.ok res) ∧
    ((∀ n, ∃ msg, f n = Except.error msg) → cfg.enabled = true →
      ∃ msg, (sendNotification cfg f L data).1 =
        Except.ok { success := false, messageId := none, error := some msg }) := by
  have hcatch : ∀ ls2 : List ListenerSpec,
      (runListenersCatch ls2).1 = ls2.map (fun l => l.id) := by
    intro ls2
    induction ls2 with
    | nil => rfl
    | cons a rest ih =>
      rcases ha : a.throwsMsg with _ | m <;> simp [runListenersCatch, ha, ih]
  refine ⟨hcatch ls, ?_, ?_, ?_⟩
  · simp [emitToListeners, hcatch]
  · rcases hE : cfg.enabled with _ | _
    · refine ⟨{ success := true, messageId := none, error := none }, ?_⟩
      simp [sendNotification, hE]
    · simp only [sendNotification, hE]
      rw [if_neg (by simp)]
      exact retryLoop_ok f L data _ hL _ none
  · intro hfail hE
    choose err herr using hfail
    obtain ⟨k, hk⟩ := Nat.exists_eq_add_of_le (jsOrNat_pos cfg.retryCount 3 (by omega))
    simp only [sendNotification, hE]
    rw [if_neg (by simp)]
    rw [hk, Nat.add_comm 1 k, range'_one_concat]
    rw [retryLoop_allFail f L data _ err hL herr (List.range' 1 k) (1 + k) none]
    exact ⟨err (1 + k), rfl⟩

/-- C6 amended witness: a throwing adapter listener (id 1) does not stop
its sibling (id 2); with no service listeners, a failing transport yields
`{success:false}` without throwing. -/
theorem listenerIsolation_spec_witness :
    (runListenersCatch [{ id := 1, throwsMsg := some "x" }, { id := 2, throwsMsg := none }]).1 =
      [1, 2] ∧
    (∃ res, (sendNotification cfgW1 (fun _ => Except.error "x") noListeners dataW).1 =
      Except.ok res) ∧
    (∃ msg, (sendNotification cfgW1 (fun _ => Except.error "x") noListeners dataW).1 =
      Except.ok { success := false, messageId := none, error := some msg }) := by
  have h := listenerIsolation_spec
    [{ id := 1, throwsMsg := some "x" }, { id := 2, throwsMsg := none }]
    [] { event := TaskNotificationEventType.task_started, taskId := "t1",
         timestamp := 0, payload := 0 }
    noListeners cfgW1 (fun _ => Except.error "x") dataW noListeners_noThrow
  exact ⟨h.1, h.2.2.1, h.2.2.2 (fun n => ⟨"x", rfl⟩) rfl⟩

theorem mget_mset_self {α β : Type} [DecidableEq α] (m : List (α × β)) (k : α) (v : β) :
    mget (mset m k v) k = some v := by
  simp [mget, mset]

theorem mget_filter_ne {α β : Type} [DecidableEq α] (m : List (α × β)) (k k' : α)
    (h : k' ≠ k) : mget (m.filter (fun p => decide (p.1 ≠ k))) k' = mget m k' := by
  induction m with
  | nil => rfl
  | cons a rest ih =>
    simp only [decide_not] at ih ⊢
    rw [List.filter_cons]
    by_cases ha : a.1 = k
    · rw [if_neg (by simp [ha])]
      rw [ih]
      have hk' : ¬a.1 = k' := by rw [ha]; exact fun hh => h hh.symm
      simp [mget, hk']
    · rw [if_pos (by simp [ha])]
      by_cases hk' : a.1 = k'
      · simp [mget, hk']
      · simp [mget, hk', ih]

theorem mget_mset_ne {α β : Type} [DecidableEq α] (m : List (α × β)) (k k' : α) (v : β)
    (h : k' ≠ k) : mget (mset m k v) k' = mget m k' := by
  simp only [mset, mget]
  rw [if_neg (fun hh => h hh.symm)]
  exact mget_filter_ne m k k' h

/-- C9 counterexample: registering the same listener twice for the same
kind is not idempotent set-membership: the listener array then holds two
occurrences and an accepted event of that kind invokes the listener
twice, not exactly once. -/
theorem adapterOn_cex :
    mget stDup.eventListeners (some TaskNotificationEventType.task_started) =
      some [lsnW, lsnW] ∧
    (emitToListeners stDup.eventListeners evStartedW).1 = [1, 1] := by
  constructor
  · rfl
  · rfl

/-- C9 amended: adapter listener management has list (multiset)
semantics, not set semantics: `on` appends one occurrence (so a listener
registered twice is invoked twice per accepted event), `off` removes
exactly the first occurrence (and is a no-op when absent), and a
wildcard listener additionally receives every accepted event: the
invocations of an accepted event are the kind-specific occurrences
followed by the wildcard occurrences, in registration order. -/
theorem adapterListeners_spec (st : AdapterState) (k : ListenerKey)
    (l : ListenerSpec) (e : AdapterEvent) :
    (mget (adapterOn st k l).eventListeners k =
      some ((mget st.eventListeners k).getD [] ++ [l])) ∧
    (l ∈ (mget st.eventListeners k).getD [] →
      mget (adapterOff st k l).eventListeners k =
        some (removeFirst ((mget st.eventListeners k).getD []) l)) ∧
    (l ∉ (mget st.eventListeners k).getD [] → adapterOff st k l = st) ∧
    ((emitToListeners st.eventListeners e).1 =
      (((mget st.eventListeners (some e.event)).getD []) ++
       ((mget st.eventListeners none).getD [])).map (fun l2 => l2.id)) ∧
    (∀ w, w ∈ (mget st.eventListeners none).getD [] →
      w.id ∈ (emitToListeners st.eventListeners e).1) := by
  have hcatch : ∀ ls2 : List ListenerSpec,
      (runListenersCatch ls2).1 = ls2.map (fun l2 => l2.id) := by
    intro ls2
    induction ls2 with
    | nil => rfl
    | cons a rest ih =>
      rcases ha : a.throwsMsg with _ | m <;> simp [runListenersCatch, ha, ih]
  have hemit : (emitToListeners st.eventListeners e).1 =
      (((mget st.eventListeners (some e.event)).getD []) ++
       ((mget st.eventListeners none).getD [])).map (fun l2 => l2.id) := by
    simp [emitToListeners, hcatch]
  refine ⟨?_, ?_, ?_, hemit, ?_⟩
  · simp [adapterOn, mget_mset_self]
  · intro hmem
    unfold adapterOff
    rw [if_pos hmem]
    exact mget_mset_self st.eventListeners k _
  · intro hmem
    unfold adapterOff
    rw [if_neg hmem]
  · intro w hw
    rw [hemit]
    exact List.mem_map_of_mem (fun l2 => l2.id) (List.mem_append_right _ hw)

/-- C9 amended witness: with the duplicate registration of `lsnW` and a
wildcard listener (id 9), an accepted `TASK_STARTED` event invokes
`[1, 1, 9]`; `off` removes one occurrence leaving the other. -/
theorem adapterListeners_spec_witness :
    mget (adapterOn stDup none { id := 9, throwsMsg := none }).eventListeners
      (some TaskNotificationEventType.task_started) = some [lsnW, lsnW] ∧
    (emitToListeners (adapterOn stDup none { id := 9, throwsMsg := none }).eventListeners
      evStartedW).1 = [1, 1, 9] ∧
    mget (adapterOff stDup (some TaskNotificationEventType.task_started) lsnW).eventListeners
      (some TaskNotificationEventType.task_started) = some [lsnW] := by
  have h1 := adapterListeners_spec (adapterOn stDup none { id := 9, throwsMsg := none })
    (some TaskNotificationEventType.task_started) lsnW evStartedW
  have h2 := adapterListeners_spec stDup (some TaskNotificationEventType.task_started)
    lsnW evStartedW
  refine ⟨?_, ?_, ?_⟩
  · rfl
  · rw [h1.2.2.2.1]
    rfl
  · rw [h2.2.1 (by decide)]
    rfl

theorem scheduleThrottledEvent_preserves (st : AdapterState)
    (k : TaskNotificationEventType) (now : Nat) :
    (scheduleThrottledEvent st k now).task = st.task ∧
    (scheduleThrottledEvent st k now).isAttached = st.isAttached ∧
    (scheduleThrottledEvent st k now).taskStartTime = st.taskStartTime ∧
    (scheduleThrottledEvent st k now).boundHandlers = st.boundHandlers ∧
    (scheduleThrottledEvent st k now).config = st.config ∧
    (scheduleThrottledEvent st k now).eventListeners = st.eventListeners ∧
    (scheduleThrottledEvent st k now).lastEventTime = st.lastEventTime ∧
    (scheduleThrottledEvent st k now).pendingEvents = st.pendingEvents := by
  unfold scheduleThrottledEvent
  split
  · simp
  · split <;> simp

theorem notify_preserves (st : AdapterState) (now : Nat) (e : AdapterEvent) :
    (notify st now e).1.task = st.task ∧
    (notify st now e).1.isAttached = st.isAttached ∧
    (notify st now e).1.taskStartTime = st.taskStartTime ∧
    (notify st now e).1.boundHandlers = st.boundHandlers ∧
    (notify st now e).1.config = st.config ∧
    (notify st now e).1.eventListeners = st.eventListeners := by
  unfold notify
  split
  · simp
  · split
    · simp
    · split
      · have h := scheduleThrottledEvent_preserves
          { st with pendingEvents := mset st.pendingEvents e.event e } e.event now
        dsimp only
        exact ⟨h.1, h.2.1, h.2.2.1, h.2.2.2.1, h.2.2.2.2.1, h.2.2.2.2.2.1⟩
      · simp

theorem shouldThrottle_of_throttleFree (cfg : TaskNotificationAdapterConfig)
    (h : throttleFreeStarted cfg)
    (lastL : List (TaskNotificationEventType × Nat)) (now : Nat) :
    shouldThrottle cfg lastL TaskNotificationEventType.task_started now = false := by
  unfold throttleFreeStarted at h
  unfold shouldThrottle
  rcases hth : cfg.throttle with _ | th
  · rfl
  · rw [hth] at h
    rcases h with h | ⟨l, hl, hcont⟩
    · simp [h]
    · have hnm : TaskNotificationEventType.task_started ∉ l := by simpa using hcont
      rcases henb : th.enabled with _ | _
      · simp [henb]
      · simp [henb, hl, hnm]

theorem notify_accepted (st : AdapterState) (now : Nat) (e : AdapterEvent)
    (hE : st.config.enabled = true) (hF : st.config.filter = none)
    (hT : shouldThrottle st.config st.lastEventTime e.event now = false) :
    notify st now e =
      ({ st with lastEventTime := mset st.lastEventTime e.event now },
       [{ time := now, ev := e,
          invoked := (emitToListeners st.eventListeners e).1,
          logged := (emitToListeners st.eventListeners e).2 }]) := by
  unfold notify
  rw [hE, hT]
  simp [shouldProcessEvent, hF]

theorem detach_notAttached (st : AdapterState) (h : st.isAttached = false) :
    detach st = st := by
  unfold detach
  rw [h]
  simp

theorem detach_clears (st : AdapterState) (h1 : st.isAttached = true)
    (h2 : st.task.isNone = false) :
    detach st =
      { st with throttleTimers := [], boundHandlers := [], task := none,
                isAttached := false, lastEventTime := [], pendingEvents := [],
                taskStartTime := 0 } := by
  unfold detach
  rw [h1, h2]
  simp

theorem detach_preserves (st : AdapterState) :
    (detach st).config = st.config ∧ (detach st).eventListeners = st.eventListeners := by
  unfold detach
  split
  · exact ⟨rfl, rfl⟩
  · exact ⟨rfl, rfl⟩

theorem detach_idem (st : AdapterState) : detach (detach st) = detach st := by
  by_cases h : (!st.isAttached || st.task.isNone) = true
  · have hid : detach st = st := by unfold detach; rw [if_pos h]
    rw [hid]
    exact hid
  · have hcl : detach st =
        { st with throttleTimers := [], boundHandlers := [], task := none,
                  isAttached := false, lastEventTime := [], pendingEvents := [],
                  taskStartTime := 0 } := by
      unfold detach
      rw [if_neg h]
    rw [hcl]
    unfold detach
    simp

/-- C7: adapter attachment state machine.  `detach` on a non-attached
adapter is a no-op; otherwise it cancels all throttle timers, unbinds the
bound handlers and clears the transient state (task reference, start
time, last-event-time map, pending-event map), preserving the
configuration (and the listener registry).  `attach` on an
already-attached adapter first performs a full detach; it records the
start time, binds exactly the five raw signal handlers, binds the adapter
to the most recent task only, and immediately synthesizes and dispatches
a `TASK_STARTED` event (when the config does not filter it and does not
throttle `TASK_STARTED`, as the default config does not). -/
theorem attachDetach_spec (st : AdapterState) (task : TaskRef) (now : Nat) :
    (st.isAttached = false → detach st = st) ∧
    (st.isAttached = true → st.task.isSome = true →
      (detach st).throttleTimers = [] ∧ (detach st).boundHandlers = [] ∧
      (detach st).task = none ∧ (detach st).isAttached = false ∧
      (detach st).lastEventTime = [] ∧ (detach st).pendingEvents = [] ∧
      (detach st).taskStartTime = 0) ∧
    ((detach st).config = st.config ∧ (detach st).eventListeners = st.eventListeners) ∧
    (st.isAttached = true → attach st task now = attach (detach st) task now) ∧
    ((attach st task now).1.task = some task ∧
     (attach st task now).1.isAttached = true ∧
     (attach st task now).1.taskStartTime = now ∧
     (attach st task now).1.boundHandlers = taskSignalNames) ∧
    (st.config.enabled = true → st.config.filter = none →
      throttleFreeStarted st.config →
      (attach st task now).2.map (fun d => (d.time, d.ev)) =
        [(now, { event := TaskNotificationEventType.task_started,
                 taskId := task.taskId, timestamp := now, payload := 0 })]) := by
  have hcfg0 : (if st.isAttached = true then detach st else st).config = st.config := by
    split
    · exact (detach_preserves st).1
    · rfl
  refine ⟨detach_notAttached st, ?_, detach_preserves st, ?_, ?_, ?_⟩
  · intro h1 h2
    have h2' : st.task.isNone = false := by
      rcases hc : st.task with _ | tk
      · rw [hc] at h2; exact absurd h2 (by simp)
      · rfl
    rw [detach_clears st h1 h2']
    exact ⟨rfl, rfl, rfl, rfl, rfl, rfl, rfl⟩
  · intro h
    have hd : (if (detach st).isAttached = true then detach (detach st) else detach st) =
        detach st := by
      by_cases h2 : (detach st).isAttached = true
      · rw [if_pos h2, detach_idem]
      · rw [if_neg h2]
    unfold attach
    simp only [h, if_true, hd]
  · unfold attach emitTaskStarted
    dsimp only
    have hp := notify_preserves
      { (if st.isAttached = true then detach st else st) with
        task := some task, taskStartTime := now, isAttached := true,
        boundHandlers := taskSignalNames } now
      { event := TaskNotificationEventType.task_started,
        taskId := task.taskId, timestamp := now, payload := 0 }
    exact ⟨hp.1, hp.2.1, hp.2.2.1, hp.2.2.2.1⟩
  · intro hE hF hT
    unfold attach emitTaskStarted
    dsimp only
    rw [notify_accepted _ now _ (by simpa [hcfg0] using hE) (by
        show (if st.isAttached = true then detach st else st).config.filter = none
        rw [hcfg0]; exact hF)
      (by
        show shouldThrottle (if st.isAttached = true then detach st else st).config _
          TaskNotificationEventType.task_started now = false
        rw [hcfg0]
        exact shouldThrottle_of_throttleFree st.config hT _ now)]
    simp

/-- C7 witness: on an adapter attached to `t1`, `detach` clears the
transient state and keeps the config; re-attaching to `t2` at time 20
first detaches, rebinds the five handlers, reports only the new task and
dispatches a fresh `TASK_STARTED`. -/
theorem attachDetach_spec_witness :
    (detach stAtt).task = none ∧ (detach stAtt).isAttached = false ∧
    (detach stAtt).boundHandlers = [] ∧ (detach stAtt).throttleTimers = [] ∧
    (detach stAtt).config = stAtt.config ∧
    (attach stAtt taskW2 20).1.task = some taskW2 ∧
    (attach stAtt taskW2 20).1.taskStartTime = 20 ∧
    (attach stAtt taskW2 20).1.boundHandlers = taskSignalNames ∧
    attach stAtt taskW2 20 = attach (detach stAtt) taskW2 20 ∧
    (attach stAtt taskW2 20).2.map (fun d => (d.time, d.ev)) =
      [(20, { event := TaskNotificationEventType.task_started, taskId := "t2",
              timestamp := 20, payload := 0 })] := by
  have h := attachDetach_spec stAtt taskW2 20
  have hc := h.2.1 rfl rfl
  refine ⟨hc.2.2.1, hc.2.2.2.1, hc.2.1, hc.1, (h.2.2.1).1, ?_, ?_, ?_, ?_, ?_⟩
  · exact (h.2.2.2.2.1).1
  · exact (h.2.2.2.2.1).2.2.1
  · exact (h.2.2.2.2.1).2.2.2
  · exact h.2.2.2.1 rfl
  · exact h.2.2.2.2.2 rfl rfl
      (Or.inr ⟨[TaskNotificationEventType.task_progress,
                TaskNotificationEventType.task_token_updated], rfl, rfl⟩)

theorem nodup_keys_filter {α β : Type} [DecidableEq α] (m : List (α × β)) (k : α)
    (h : (m.map Prod.fst).Nodup) :
    ((m.filter (fun p => decide (p.1 ≠ k))).map Prod.fst).Nodup :=
  List.Nodup.sublist (List.Sublist.map Prod.fst (List.filter_sublist m)) h

theorem nodup_keys_mset {α β : Type} [DecidableEq α] (m : List (α × β)) (k : α) (v : β)
    (h : (m.map Prod.fst).Nodup) :
    (((mset m k v).map Prod.fst)).Nodup := by
  unfold mset
  rw [List.map_cons]
  refine List.Nodup.cons ?_ (nodup_keys_filter m k h)
  intro hmem
  simp only [List.mem_map] at hmem
  obtain ⟨p, hp, hpk⟩ := hmem
  have := List.of_mem_filter hp
  simp only [decide_eq_true_eq] at this
  exact this hpk

theorem nodup_keys_mdel {α β : Type} [DecidableEq α] (m : List (α × β)) (k : α)
    (h : (m.map Prod.fst).Nodup) :
    (((mdel m k).map Prod.fst)).Nodup :=
  nodup_keys_filter m k h

/-- C8: the registry's registration invariant.  The effective config of a
freshly registered adapter is the defaults overlaid with the registry
defaults and the override, with `enabled` forced to
`registry.enabled AND override.enabled ≠ false`; the new entry is keyed
by the task id with the registration time; a stale entry for the same
task id is unregistered first (its adapter detached and its listeners
cleared); and after any sequence of `registerTask`/`unregisterTask`
operations the registry map holds at most one adapter per task id. -/
theorem registerTask_spec (reg : RegistryState) (task : TaskRef)
    (cfgOv : Option AdapterConfigPartial) (now : Nat) (fid : Nat)
    (init : RegistryState) (ops : List RegistryOp) :
    ((registerTask reg task cfgOv now fid).2.1.config =
      { applyPartial DEFAULT_ADAPTER_CONFIG
          (mergePartial reg.defaultConfig (cfgOv.getD emptyPartial)) with
        enabled := reg.isEnabled &&
          decide (cfgOv.bind (fun c => c.enabled) ≠ some false) }) ∧
    (mget (registerTask reg task cfgOv now fid).1.adapters task.taskId =
      some { taskId := task.taskId,
             adapter := (registerTask reg task cfgOv now fid).2.1,
             createdAt := now }) ∧
    (∀ info, mget reg.adapters task.taskId = some info →
      (registerTask reg task cfgOv now fid).2.2 =
        some { detach info.adapter with eventListeners := [] }) ∧
    ((init.adapters.map Prod.fst).Nodup →
      ((applyOps init ops).adapters.map Prod.fst).Nodup) := by
  have hattachcfg : ∀ (st : AdapterState) (tk : TaskRef) (n : Nat),
      (attach st tk n).1.config = st.config := by
    intro st tk n
    unfold attach emitTaskStarted
    dsimp only
    rw [(notify_preserves _ n _).2.2.2.2.1]
    show (if st.isAttached = true then detach st else st).config = st.config
    split
    · exact (detach_preserves st).1
    · rfl
  refine ⟨?_, ?_, ?_, ?_⟩
  · unfold registerTask
    dsimp only
    rw [hattachcfg]
    rfl
  · unfold registerTask
    dsimp only
    exact mget_mset_self _ _ _
  · intro info hinfo
    unfold registerTask
    dsimp only
    rw [if_pos (by rw [hinfo]; rfl)]
    unfold unregisterTask
    rw [hinfo]
  · intro hinit
    induction ops generalizing init with
    | nil => exact hinit
    | cons op rest ih =>
      have hstep : ((applyOp init op).adapters.map Prod.fst).Nodup := by
        rcases op with ⟨tk, ov, n, f⟩ | tid
        · show (((registerTask init tk ov n f).1.adapters).map Prod.fst).Nodup
          unfold registerTask
          dsimp only
          split
          · unfold unregisterTask
            rcases hg : mget init.adapters tk.taskId with _ | info
            · exact nodup_keys_mset _ _ _ hinit
            · exact nodup_keys_mset _ _ _ (nodup_keys_mdel _ _ hinit)
          · exact nodup_keys_mset _ _ _ hinit
        · show (((unregisterTask init tid).1.adapters).map Prod.fst).Nodup
          unfold unregisterTask
          rcases hg : mget init.adapters tid with _ | info
          · exact hinit
          · exact nodup_keys_mdel _ _ hinit
      exact ih (applyOp init op) hstep

/-- C8 witness: registering `t1` twice on an enabled registry with an
`enabled:=true` override and then once more with `enabled:=false`:
exactly one entry per id survives, the stale adapter comes back detached
and listener-free, and the effective `enabled` is the conjunction. -/
theorem registerTask_spec_witness :
    ((registerTask reg0W taskW none 5 0).2.1.config.enabled = true) ∧
    ((registerTask reg0W taskW (some { emptyPartial with enabled := some false })
        5 0).2.1.config.enabled = false) ∧
    (mget (registerTask reg0W taskW none 5 0).1.adapters "t1" =
      some { taskId := "t1",
             adapter := (registerTask reg0W taskW none 5 0).2.1,
             createdAt := 5 }) ∧
    ((registerTask (registerTask reg0W taskW none 5 0).1 taskW none 6 0).2.2.isSome
      = true) ∧
    (((applyOps reg0W
        [RegistryOp.register taskW none 5 0, RegistryOp.register taskW none 6 0,
         RegistryOp.unregister "t2"]).adapters.map Prod.fst).Nodup) := by
  have h1 := registerTask_spec reg0W taskW none 5 0 reg0W
    [RegistryOp.register taskW none 5 0, RegistryOp.register taskW none 6 0,
     RegistryOp.unregister "t2"]
  have h2 := registerTask_spec reg0W taskW
    (some { emptyPartial with enabled := some false }) 5 0 reg0W []
  have h3 := registerTask_spec (registerTask reg0W taskW none 5 0).1 taskW none 6 0
    reg0W []
  refine ⟨?_, ?_, h1.2.1, ?_, h1.2.2.2 List.nodup_nil⟩
  · rw [h1.1]
    rfl
  · rw [h2.1]
    rfl
  · rw [h3.2.2.1 _ h1.2.1]
    rfl

theorem shouldThrottle_empty (cfg : TaskNotificationAdapterConfig)
    (k : TaskNotificationEventType) (now : Nat) :
    shouldThrottle cfg [] k now = false := by
  unfold shouldThrottle
  rcases cfg.throttle with _ | th
  · rfl
  · dsimp only
    split
    · rfl
    · split
      · rfl
      · simp [mget]

theorem notify_throttled_general (st : AdapterState) (now : Nat) (e : AdapterEvent)
    (hE : st.config.enabled = true) (hF : st.config.filter = none)
    (hT : shouldThrottle st.config st.lastEventTime e.event now = true) :
    notify st now e =
      (scheduleThrottledEvent
        { st with pendingEvents := mset st.pendingEvents e.event e } e.event now,
       []) := by
  unfold notify
  rw [hE, hT]
  simp [shouldProcessEvent, hF]

theorem schedule_arm (st : AdapterState) (k : TaskNotificationEventType) (now : Nat)
    (th : ThrottleConfig) (hth : st.config.throttle = some th)
    (hnone : mget st.throttleTimers k = none) :
    scheduleThrottledEvent st k now =
      { st with throttleTimers := (k, now + th.intervalMs) :: st.throttleTimers } := by
  unfold scheduleThrottledEvent
  rw [hnone, hth]
  rfl

theorem schedule_noop (st : AdapterState) (k : TaskNotificationEventType) (now : Nat)
    (hsome : (mget st.throttleTimers k).isSome = true) :
    scheduleThrottledEvent st k now = st := by
  unfold scheduleThrottledEvent
  rw [if_pos hsome]

theorem fireDue_nodue (st : AdapterState) (t : Nat)
    (h : ∀ p ∈ st.throttleTimers, ¬(p.2 ≤ t)) : fireDue st t = (st, []) := by
  unfold fireDue
  rcases hl : st.throttleTimers.length with _ | n
  · rfl
  · unfold fireDueFuel
    rw [show st.throttleTimers.filter (fun p => decide (p.2 ≤ t)) = [] from by
      rw [List.filter_eq_nil_iff]
      intro p hp
      simpa using h p hp]
    rfl

theorem notify_burst_throttled (I : Nat) (ets : List TaskNotificationEventType)
    (autoN : Option Bool) (T : Option TaskRef) (A : Bool) (ts : Nat)
    (B : List String) (EL : List (ListenerKey × List ListenerSpec))
    (K : TaskNotificationEventType) (t0 d t : Nat) (p e : AdapterEvent)
    (hK : ets.contains K = true) (he : e.event = K) (ht0 : 1 ≤ t0) (ht : t - t0 < I) :
    notify (burstState (throttleCfg I ets autoN) T A ts B EL K t0 d p) t e =
      (burstState (throttleCfg I ets autoN) T A ts B EL K t0 d e, []) := by
  have hKm : K ∈ ets := by simpa using hK
  have ht0' : ¬(t0 = 0) := by omega
  have hT : shouldThrottle (throttleCfg I ets autoN) [(K, t0)] e.event t = true := by
    rw [he]
    simp [shouldThrottle, throttleCfg, mget, hKm, ht0', ht]
  rw [notify_throttled_general _ t e rfl rfl hT]
  rw [schedule_noop _ _ _ (by rw [he]; simp [burstState, mget])]
  unfold burstState
  rw [he]
  simp [mset, mget]

theorem processInputs_burst (I : Nat) (ets : List TaskNotificationEventType)
    (autoN : Option Bool) (T : Option TaskRef) (A : Bool) (ts : Nat)
    (B : List String) (EL : List (ListenerKey × List ListenerSpec))
    (K : TaskNotificationEventType) (t0 d : Nat)
    (hK : ets.contains K = true) (ht0 : 1 ≤ t0) (hd : t0 + I ≤ d) :
    ∀ (rest : List (Nat × AdapterEvent)) (p : AdapterEvent),
      (∀ q ∈ rest, t0 ≤ q.1 ∧ q.1 < t0 + I ∧ q.2.event = K) →
      processInputs (burstState (throttleCfg I ets autoN) T A ts B EL K t0 d p) rest =
        (burstState (throttleCfg I ets autoN) T A ts B EL K t0 d
          ((rest.map Prod.snd).getLastD p), []) := by
  intro rest
  induction rest with
  | nil =>
    intro p _
    rfl
  | cons q rs ih =>
    intro p hq
    obtain ⟨qt, qe⟩ := q
    obtain ⟨hq1, hq2, hq3⟩ := hq (qt, qe) (List.mem_cons_self _ _)
    have hrest' : ∀ q2 ∈ rs, t0 ≤ q2.1 ∧ q2.1 < t0 + I ∧ q2.2.event = K :=
      fun q2 hq2' => hq q2 (List.mem_cons_of_mem _ hq2')
    unfold processInputs
    rw [fireDue_nodue _ qt (by
      intro pp hpp
      have : pp = (K, d) := by simpa [burstState] using hpp
      rw [this]
      simp only
      omega)]
    dsimp only
    rw [notify_burst_throttled I ets autoN T A ts B EL K t0 d qt p qe hK hq3 ht0 (by omega)]
    dsimp only
    rw [ih qe hrest']
    rw [List.map_cons, List.getLastD_cons]
    rfl

theorem drain_burst (I : Nat) (ets : List TaskNotificationEventType)
    (autoN : Option Bool) (T : Option TaskRef) (A : Bool) (ts : Nat)
    (B : List String) (EL : List (ListenerKey × List ListenerSpec))
    (K : TaskNotificationEventType) (t0 d : Nat) (p : AdapterEvent) :
    drainTimers (burstState (throttleCfg I ets autoN) T A ts B EL K t0 d p) =
      ({ task := T, isAttached := A, taskStartTime := ts,
         lastEventTime := [(K, d)], pendingEvents := [], throttleTimers := [],
         boundHandlers := B, eventListeners := EL, config := throttleCfg I ets autoN },
       [{ time := d, ev := p, invoked := (emitToListeners EL p).1,
          logged := (emitToListeners EL p).2 }]) := by
  unfold drainTimers burstState
  simp only [List.length_cons, List.length_nil]
  unfold drainFuel
  simp only [earliestTimer, List.foldl]
  unfold fireTimer
  simp [drainFuel, mdel, mget, mset]

theorem mget_none_keys {α β : Type} [DecidableEq α] (m : List (α × β)) (k : α)
    (h : mget m k = none) : k ∉ m.map Prod.fst := by
  induction m with
  | nil => simp
  | cons a rest ih =>
    unfold mget at h
    by_cases ha : a.1 = k
    · rw [if_pos ha] at h
      exact absurd h (by simp)
    · rw [if_neg ha] at h
      simp only [List.map_cons, List.mem_cons]
      rintro (hh | hh)
      · exact ha hh.symm
      · exact ih h hh

theorem schedule_nodup (st : AdapterState) (k : TaskNotificationEventType) (now : Nat)
    (hnd : (st.throttleTimers.map Prod.fst).Nodup) :
    ((scheduleThrottledEvent st k now).throttleTimers.map Prod.fst).Nodup := by
  unfold scheduleThrottledEvent
  by_cases hs : (mget st.throttleTimers k).isSome = true
  · rw [if_pos hs]
    exact hnd
  · rw [if_neg hs]
    rcases hth : st.config.throttle with _ | th
    · exact hnd
    · dsimp only
      refine List.Nodup.cons ?_ hnd
      have hnone : mget st.throttleTimers k = none := by
        rcases hg : mget st.throttleTimers k with _ | v
        · rfl
        · rw [hg] at hs
          exact absurd rfl hs
      exact mget_none_keys st.throttleTimers k hnone

/-- C5 counterexample: a burst of three `TASK_PROGRESS` events at clock
times 0, 100, 200 (interval 2000 ms).  The first event is accepted at
time 0, stamping `K`'s last-event time with `0`; `shouldThrottle`'s
`if (!lastTime) return false` treats that `0` as falsy, so the second
event is also accepted immediately; only the third is throttled and
later fired by the timer at 2200.  Three accepted dispatches — not the
"exactly 2" the claim states for every burst within the interval. -/
theorem throttle_cex :
    ((runAdapter (cleanAdapter (throttleCfg 2000
          [TaskNotificationEventType.task_progress,
           TaskNotificationEventType.task_token_updated] (some true))
          none false 0 [] [])
        [(0, eP0), (100, eP1), (200, eP2)]).2.map (fun dp => (dp.time, dp.ev)) =
      [(0, eP0), (100, eP1), (2200, eP2)]) ∧
    ((runAdapter (cleanAdapter (throttleCfg 2000
          [TaskNotificationEventType.task_progress,
           TaskNotificationEventType.task_token_updated] (some true))
          none false 0 [] [])
        [(0, eP0), (100, eP1), (200, eP2)]).2.length = 3) := by
  constructor
  · rfl
  · rfl

/-- C5 amended: throttling with coalescing.  For an adapter with
throttling enabled for kind `K` (interval `I`), a burst of `N ≥ 2`
events of kind `K` through `notify`, all within `I` ms of each other
(the later ones in `[t0, t0 + I)` where `t0` is the first event's time),
yields exactly two accepted dispatches — the first event immediately at
`t0`, and, when the single trailing timer (armed at the second event's
time `t1`) fires at `t1 + I`, whatever event most recently occupies
`K`'s pending slot (earlier pending events are overwritten and never
dispatched) — PROVIDED the burst starts at a non-zero clock time
(`t0 ≥ 1`): a last-event stamp of `0` is JS-falsy and disables the
throttle check, so a burst starting at clock 0 gets a third dispatch.
An event of a kind not subject to throttling is never delayed: it
dispatches immediately from any state.  `notify` never creates a second
live timer for a kind that already has one (per-kind timer keys stay
duplicate-free). -/
theorem throttle_spec (I : Nat) (ets : List TaskNotificationEventType)
    (autoN : Option Bool) (T : Option TaskRef) (A : Bool) (ts : Nat)
    (B : List String) (EL : List (ListenerKey × List ListenerSpec))
    (K : TaskNotificationEventType) (t0 t1 : Nat) (e0 e1 : AdapterEvent)
    (rest : List (Nat × AdapterEvent))
    (hK : ets.contains K = true) (he0 : e0.event = K) (he1 : e1.event = K)
    (ht0 : 1 ≤ t0) (ht01 : t0 ≤ t1) (ht1 : t1 < t0 + I)
    (hrest : ∀ q ∈ rest, t0 ≤ q.1 ∧ q.1 < t0 + I ∧ q.2.event = K) :
    ((runAdapter (cleanAdapter (throttleCfg I ets autoN) T A ts B EL)
        ((t0, e0) :: (t1, e1) :: rest)).2.map (fun dp => (dp.time, dp.ev)) =
      [(t0, e0), (t1 + I, (rest.map Prod.snd).getLastD e1)]) ∧
    (∀ (st : AdapterState) (now : Nat) (e : AdapterEvent),
      st.config = throttleCfg I ets autoN → ets.contains e.event = false →
      (notify st now e).2.map (fun dp => (dp.time, dp.ev)) = [(now, e)]) ∧
    (∀ (st : AdapterState) (now : Nat) (e : AdapterEvent),
      (st.throttleTimers.map Prod.fst).Nodup →
      ((notify st now e).1.throttleTimers.map Prod.fst).Nodup) := by
  refine ⟨?_, ?_, ?_⟩
  · -- the burst
    have hstep0 : notify (cleanAdapter (throttleCfg I ets autoN) T A ts B EL) t0 e0 =
        ({ cleanAdapter (throttleCfg I ets autoN) T A ts B EL with
           lastEventTime := [(K, t0)] },
         [{ time := t0, ev := e0, invoked := (emitToListeners EL e0).1,
            logged := (emitToListeners EL e0).2 }]) := by
      rw [notify_accepted _ t0 e0 rfl rfl (shouldThrottle_empty _ _ t0)]
      rw [he0]
      rfl
    have hS1 : ({ cleanAdapter (throttleCfg I ets autoN) T A ts B EL with
        lastEventTime := [(K, t0)] } : AdapterState).throttleTimers = [] := rfl
    have hstep1 : notify ({ cleanAdapter (throttleCfg I ets autoN) T A ts B EL with
        lastEventTime := [(K, t0)] }) t1 e1 =
        (burstState (throttleCfg I ets autoN) T A ts B EL K t0 (t1 + I) e1, []) := by
      have hKm : K ∈ ets := by simpa using hK
      have ht0' : ¬(t0 = 0) := by omega
      have hT : shouldThrottle (throttleCfg I ets autoN) [(K, t0)] e1.event t1 = true := by
        rw [he1]
        simp [shouldThrottle, throttleCfg, mget, hKm, ht0']
        omega
      rw [notify_throttled_general _ t1 e1 rfl rfl hT]
      rw [schedule_arm _ e1.event t1
        { enabled := true, intervalMs := I, eventTypes := some ets } rfl (by simp [mget])]
      unfold burstState cleanAdapter
      rw [he1]
      simp [mset]
    have hPI : processInputs (cleanAdapter (throttleCfg I ets autoN) T A ts B EL)
        ((t0, e0) :: (t1, e1) :: rest) =
        (burstState (throttleCfg I ets autoN) T A ts B EL K t0 (t1 + I)
          ((rest.map Prod.snd).getLastD e1),
         [{ time := t0, ev := e0, invoked := (emitToListeners EL e0).1,
            logged := (emitToListeners EL e0).2 }]) := by
      unfold processInputs
      rw [fireDue_nodue _ t0 (by intro pp hpp; simp [cleanAdapter] at hpp)]
      dsimp only
      rw [hstep0]
      unfold processInputs
      dsimp only
      rw [fireDue_nodue _ t1 (by intro pp hpp; rw [hS1] at hpp; simp at hpp)]
      dsimp only
      rw [hstep1]
      dsimp only
      rw [processInputs_burst I ets autoN T A ts B EL K t0 (t1 + I) hK ht0 (by omega)
        rest e1 hrest]
      simp
    unfold runAdapter
    rw [hPI]
    dsimp only
    rw [drain_burst]
    simp
  · -- non-throttled kinds are never delayed
    intro st now e hcfg hne
    have hnm : e.event ∉ ets := by simpa using hne
    have hT : shouldThrottle st.config st.lastEventTime e.event now = false := by
      rw [hcfg]
      simp [shouldThrottle, throttleCfg, hnm]
    rw [notify_accepted st now e (by rw [hcfg]; rfl) (by rw [hcfg]; rfl) hT]
    simp
  · -- at most one live timer per kind
    intro st now e hnd
    unfold notify
    split
    · exact hnd
    · split
      · exact hnd
      · split
        · exact schedule_nodup _ _ _ hnd
        · exact hnd

/-- C5 amended witness: kind `TASK_PROGRESS`, interval 2000 ms, burst at
the non-zero times 10, 110, 210: exactly two dispatches — the first
event at 10 and the last pending event when the timer fires at 2110; a
`TASK_COMPLETED` event is dispatched immediately. -/
theorem throttle_spec_witness :
    ((runAdapter (cleanAdapter (throttleCfg 2000
          [TaskNotificationEventType.task_progress,
           TaskNotificationEventType.task_token_updated] (some true))
          none false 0 [] [])
        [(10, eP0), (110, eP1), (210, eP2)]).2.map (fun dp => (dp.time, dp.ev)) =
      [(10, eP0), (2110, eP2)]) ∧
    ((notify (cleanAdapter (throttleCfg 2000
          [TaskNotificationEventType.task_progress,
           TaskNotificationEventType.task_token_updated] (some true))
          none false 0 [] []) 50 eC).2.map (fun dp => (dp.time, dp.ev)) =
      [(50, eC)]) := by
  have h := throttle_spec 2000
    [TaskNotificationEventType.task_progress,
     TaskNotificationEventType.task_token_updated] (some true)
    none false 0 [] [] TaskNotificationEventType.task_progress 10 110 eP0 eP1
    [(210, eP2)] rfl rfl rfl (by omega) (by omega) (by omega)
    (by
      intro q hq
      rw [List.mem_singleton] at hq
      rw [hq]
      exact ⟨by omega, by omega, rfl⟩)
  refine ⟨?_, h.2.1 _ 50 eC rfl rfl⟩
  have h1 := h.1
  simpa using h1

end LarkSpec
